import Mathlib

/-!
Shallow embedding of the Beeline PDF/Excel reconciliation engine
(`reconciliation.py`, `excel_processor.py`) in Lean 4, together with
theorems settling the specification claims about it.

Modelling conventions:
* Python floats are modelled as exact rationals (`ℚ`);
* Python strings are Lean `String`s; optional/missing values are `Option`;
* Python `datetime` values are modelled as integer day numbers (`ℤ`);
  `parse_date`'s string-format branch is not modelled (no claim depends on it),
  only its pass-through branch for already-parsed dates;
* Python dicts keyed by order number are association lists preserving
  insertion order, with first-key lookup;
* timestamps and log output are omitted (they carry no matching logic).
-/

attribute [local semireducible] Rat.add Rat.mul Rat.sub Rat.inv Rat.ofScientific

namespace Beeline

/-- Python truthiness of an optional string (`None` and `""` are falsy). -/
def truthyStr : Option String → Bool
  | none => false
  | some s => s ≠ ""

/-- `str(x)` for an optional string, as Python renders it (`None` prints as `"None"`). -/
def pyStr : Option String → String
  | none => "None"
  | some s => s

/-- Python `str.strip()` (whitespace trimming at both ends). -/
def pyStrip (s : String) : String :=
  String.mk (((s.toList.dropWhile Char.isWhitespace).reverse.dropWhile
    Char.isWhitespace).reverse)

/-- Python `str.lower()` (character-wise lowercasing). -/
def pyLower (s : String) : String := String.mk (s.toList.map Char.toLower)

/-- All decimal digits of a string, in order (`re.sub(r"[^\d]", "", s)`). -/
def digitsOf (s : String) : String := String.mk (s.toList.filter Char.isDigit)

/-- Python `str.isdigit()` (restricted to ASCII digits). -/
def pyIsdigit (s : String) : Bool := !s.toList.isEmpty && s.toList.all Char.isDigit

/-- Numeric value of a digit list (most significant first). -/
def digitsVal (cs : List Char) : ℕ := cs.foldl (fun a c => a * 10 + (c.toNat - 48)) 0

/-- Python `float(s)` on the character set `[0-9.-]` that survives the engine's
cleanup regexes: an optional leading `-`, digits, at most one `.`, at least one
digit in total; `none` models `ValueError`. -/
def pyFloat (s : String) : Option ℚ :=
  let cs := s.toList
  let neg := cs.head? = some '-'
  let body := if neg then cs.drop 1 else cs
  let ip := body.takeWhile Char.isDigit
  let rest := body.drop ip.length
  let build : List Char → Option ℚ := fun fp =>
    if fp.all Char.isDigit && (!ip.isEmpty || !fp.isEmpty) then
      let mag : ℚ := (digitsVal ip : ℚ) + (digitsVal fp : ℚ) / ((10 : ℚ) ^ fp.length)
      some (if neg then -mag else mag)
    else none
  match rest with
  | [] => build []
  | '.' :: fp => build fp
  | _ => none

/-- Python `round(x, n)`: round to `n` decimal places, ties to even. -/
def pyRound (q : ℚ) (n : ℕ) : ℚ :=
  let m : ℚ := q * (10 : ℚ) ^ n
  let f : ℤ := ⌊m⌋
  let r : ℚ := m - f
  let z : ℤ :=
    if r < 1/2 then f
    else if r > 1/2 then f + 1
    else if f % 2 = 0 then f else f + 1
  (z : ℚ) / (10 : ℚ) ^ n

/-- `pat` occurs as a substring of `s` (Python `pat in s`). -/
def strContains (s pat : String) : Bool :=
  (List.range (s.length + 1)).any fun i => pat.toList.isPrefixOf (s.toList.drop i)

/-! ### Model of `difflib.SequenceMatcher(None, a, b).ratio()`

Modelled from Python's `difflib` (an external library the engine calls):
with no junk, `find_longest_match` returns the longest matching block,
earliest in `a` and then earliest in `b`; `get_matching_blocks` decomposes
both sides around it recursively; the ratio is `2*M/(len(a)+len(b))` where
`M` is the total matched size ( `1` when both strings are empty). -/

/-- Length of the common leading run of two character lists. -/
def leadMatch : List Char → List Char → ℕ
  | a :: as, b :: bs => if a = b then leadMatch as bs + 1 else 0
  | _, _ => 0

/-- Longest matching block `(i, j, k)` of two character lists, earliest start
in the first list and then in the second (ties broken by scan order). -/
def bestBlock (a b : List Char) : ℕ × ℕ × ℕ :=
  (List.range a.length).foldl
    (fun acc i =>
      (List.range b.length).foldl
        (fun acc2 j =>
          let k := leadMatch (a.drop i) (b.drop j)
          if k > acc2.2.2 then (i, j, k) else acc2)
        acc)
    (0, 0, 0)

/-- Total matched size of the recursive block decomposition; the fuel
argument (any value `> a.length` suffices) only bounds the recursion. -/
def matchedTotal : ℕ → List Char → List Char → ℕ
  | 0, _, _ => 0
  | fuel + 1, a, b =>
    let t := bestBlock a b
    if t.2.2 = 0 then 0
    else
      matchedTotal fuel (a.take t.1) (b.take t.2.1) + t.2.2 +
        matchedTotal fuel (a.drop (t.1 + t.2.2)) (b.drop (t.2.1 + t.2.2))

/-- `SequenceMatcher.ratio()` on two character lists. -/
def smScore (a b : List Char) : ℚ :=
  if a.length + b.length = 0 then 1
  else 2 * (matchedTotal (a.length + b.length + 1) a b : ℚ) / ((a.length + b.length : ℕ) : ℚ)

end Beeline

namespace Beeline.ExcelProcessor

/-- Characters kept by `re.sub(r"[^\d,.-]", "", s)`. -/
def keepAmountChars (s : String) : String :=
  String.mk (s.toList.filter fun c => c.isDigit || c = ',' || c = '.' || c = '-')

/-- The last `','` occurs after the last `'.'` (`cleaned.rfind(',') > cleaned.rfind('.')`,
under the assumption that both characters occur). -/
def commaAfterDot (cs : List Char) : Bool :=
  (cs.reverse.takeWhile (· ≠ ',')).length < (cs.reverse.takeWhile (· ≠ '.')).length

/-- `excel_processor.clean_amount_column`'s inner `parse_amount`: locale-aware
amount normalisation for spreadsheet cells (`none` models a NaN cell). -/
def parse_amount (val : Option String) : ℚ :=
  match val with
  | none => 0
  | some v =>
    let val_str := Beeline.pyStrip v
    let cleaned := keepAmountChars val_str
    if cleaned = "" || cleaned = "-" || cleaned = "." || cleaned = "," then 0
    else
      let cs := cleaned.toList
      let c2 :=
        if cs.contains ',' && cs.contains '.' then
          if commaAfterDot cs then
            -- european format: drop thousands dots, comma becomes decimal dot
            String.mk ((cs.filter (· ≠ '.')).map fun c => if c = ',' then '.' else c)
          else
            -- US format: drop thousands commas
            String.mk (cs.filter (· ≠ ','))
        else if cs.contains ',' then
          let after_comma := (cs.reverse.takeWhile (· ≠ ',')).length
          if after_comma ≤ 2 then String.mk (cs.map fun c => if c = ',' then '.' else c)
          else String.mk (cs.filter (· ≠ ','))
        else cleaned
      (Beeline.pyFloat c2).getD 0

/-- Result of `validate_order_number` (the `errors` strings of the source are
kept as-is). -/
structure OrderValidation where
  valid : Bool
  errors : List String
deriving DecidableEq, Repr

/-- `excel_processor.validate_order_number`: strips an Excel numeric-cell
fractional part, then requires exactly ten digits (`none` models NaN). -/
def validate_order_number (order_number : Option String) : OrderValidation :=
  match order_number with
  | none => ⟨false, ["Numéro de commande manquant"]⟩
  | some v =>
    let s0 := Beeline.pyStrip v
    let s :=
      if s0.toList.contains '.' &&
          Beeline.pyIsdigit (String.mk ((s0.toList.filter (· ≠ '.')).filter (· ≠ '0'))) then
        String.mk (s0.toList.takeWhile (· ≠ '.'))
      else s0
    if s.length = 10 && s.toList.all Char.isDigit then ⟨true, []⟩
    else ⟨false, ["Format numéro de commande invalide: " ++ s ++ " (attendu: 10 chiffres)"]⟩

end Beeline.ExcelProcessor

namespace Beeline.Reconciliation

/-- A Python scalar as received by `parse_amount` (number, string, or `None`). -/
inductive PyVal
  | num (q : ℚ)
  | str (s : String)
  | none
deriving DecidableEq, Repr

/-- `reconciliation.clean_order_number`: keep only digits, accept length 8–12. -/
def clean_order_number (order_number : Option String) : Option String :=
  if !Beeline.truthyStr order_number then Option.none
  else
    let order_str := Beeline.pyStrip (Beeline.pyStr order_number)
    let clean := Beeline.digitsOf order_str
    if 8 ≤ clean.length ∧ clean.length ≤ 12 then some clean else Option.none

/-- `reconciliation.clean_supplier_name`. -/
def clean_supplier_name (supplier : String) : String :=
  if supplier = "" then ""
  else
    let cleaned := Beeline.pyLower (Beeline.pyStrip supplier)
    if Beeline.strContains cleaned "randstad" then "Randstad"
    else if Beeline.strContains cleaned "select" && Beeline.strContains cleaned "t.t" then
      "Select T.T."
    else Beeline.pyStrip supplier

/-- `reconciliation.parse_amount`: every comma becomes a dot, spaces are dropped,
then a float parse of what remains (0.0 on failure). -/
def parse_amount (amount : PyVal) : ℚ :=
  match amount with
  | .none => 0
  | .num q => if q = 0 then 0 else q
  | .str s =>
    if s = "" then 0
    else
      let amount_str := String.mk ((s.toList.map fun c => if c = ',' then '.' else c).filter (· ≠ ' '))
      let amount_clean := String.mk (amount_str.toList.filter fun c => c.isDigit || c = '.' || c = '-')
      if amount_clean = "" then 0 else (Beeline.pyFloat amount_clean).getD 0

/-- `reconciliation.parse_date`, restricted to the pass-through branch for
values that are already dates (dates are modelled as integer day numbers;
the `strptime` format loop is not modelled, no claim depends on it). -/
def parse_date (date_value : Option ℤ) : Option ℤ := date_value

/-- `reconciliation.calculate_string_similarity` (`difflib` ratio of the
lowercased strings, `0.0` when either is empty). -/
def calculate_string_similarity (s1 s2 : String) : ℚ :=
  if s1 = "" ∨ s2 = "" then 0
  else Beeline.smScore (Beeline.pyLower s1).toList (Beeline.pyLower s2).toList

/-- `reconciliation.calculate_amount_confidence`. -/
def calculate_amount_confidence (amount1 amount2 : ℚ) : ℚ :=
  if amount1 = 0 ∧ amount2 = 0 then 1
  else if amount1 = 0 ∨ amount2 = 0 then 0
  else
    let max_amount := max amount1 amount2
    let difference := |amount1 - amount2|
    if difference = 0 then 1
    else max 0 (1 - difference / max_amount * 2)

/-- An invoice line reference extracted from a PDF
(`pdf_extractor.InvoiceReference`). -/
structure InvoiceReference where
  batch_id : String := ""
  assignment_id : String := ""
  reference_key : String := ""
  service_description : String := ""
  quantity : ℚ := 0
  unit_price : ℚ := 0
  line_total : ℚ := 0
  cost_center : String := ""
deriving DecidableEq, Repr

/-- A raw PDF extraction record as handed to `perform_reconciliation`
(the fields the engine reads; `validation_is_valid` and
`completeness_overall` model `validation["is_valid"]` and
`data_completeness["overall_score"]`). -/
structure PdfRaw where
  success : Bool := true
  filename : Option String := Option.none
  purchase_order : Option String := Option.none
  invoice_id : Option String := Option.none
  total_net : PyVal := .num 0
  invoice_date : Option ℤ := Option.none
  supplier : String := ""
  client : String := ""
  validation_is_valid : Bool := false
  completeness_overall : ℚ := 0
  invoice_references : List InvoiceReference := []
deriving DecidableEq, Repr

/-- A prepared invoice record (`prepare_pdf_data`'s output dict). -/
structure Pdf where
  index : ℕ := 0
  filename : String := ""
  order_number : Option String := Option.none
  invoice_id : Option String := Option.none
  amount : ℚ := 0
  invoice_date : Option ℤ := Option.none
  supplier : String := ""
  client : String := ""
  validation_is_valid : Bool := false
  completeness_overall : ℚ := 0
  data_quality_score : ℚ := 0
  raw_data : PdfRaw := {}
deriving DecidableEq, Repr

/-- `reconciliation.calculate_pdf_quality_score`. -/
def calculate_pdf_quality_score (pdf : Pdf) : ℚ :=
  let score : ℚ :=
    (if Beeline.truthyStr pdf.order_number then 4/10 else 0) +
    (if pdf.amount ≠ 0 then 3/10 else 0) +
    (if Beeline.truthyStr pdf.invoice_id then 1/10 else 0) +
    (if pdf.supplier ≠ "" then 1/10 else 0) +
    (if pdf.invoice_date.isSome then 1/10 else 0)
  let score := if pdf.validation_is_valid then score * (12/10) else score
  let score := score * (8/10 + pdf.completeness_overall / 100 * (2/10))
  min 1 score

/-- `reconciliation.prepare_pdf_data`: clean each successful record and keep
only those with an order number and a positive amount. -/
def prepare_pdf_data (pdf_data : List PdfRaw) : List Pdf :=
  pdf_data.enum.foldl
    (fun prepared ip =>
      let i := ip.1
      let pdf := ip.2
      if !pdf.success then prepared
      else
        let p : Pdf :=
          { index := i
            filename := pdf.filename.getD ("pdf_" ++ toString i)
            order_number := clean_order_number pdf.purchase_order
            invoice_id := pdf.invoice_id
            amount := parse_amount pdf.total_net
            invoice_date := parse_date pdf.invoice_date
            supplier := clean_supplier_name pdf.supplier
            client := pdf.client
            validation_is_valid := pdf.validation_is_valid
            completeness_overall := pdf.completeness_overall
            raw_data := pdf }
        let p := { p with data_quality_score := calculate_pdf_quality_score p }
        if Beeline.truthyStr p.order_number && decide (p.amount > 0) then prepared ++ [p]
        else prepared)
    []

end Beeline.Reconciliation

namespace Beeline

/-- A processed spreadsheet line record (the fields `aggregate_by_order_number`
reads; `net_amount = none` models a missing/non-numeric/NaN cell). -/
structure ExcelRecord where
  is_valid : Bool := false
  order_number : Option String := Option.none
  net_amount : Option ℚ := Option.none
  collaborator : Option String := Option.none
  cost_center : Option String := Option.none
  statement_date : Option ℤ := Option.none
  supplier : Option String := Option.none
  project : Option String := Option.none
  source_filename : Option String := Option.none
deriving DecidableEq, Repr

/-- The per-aggregate `validation_summary` dict. -/
structure ValidationSummary where
  total_lines : ℕ := 0
  valid_lines : ℕ := 0
  invalid_lines : ℕ := 0
  validity_rate : ℚ := 0
deriving DecidableEq, Repr

/-- One order aggregate (`aggregate_by_order_number`'s per-order dict, plus the
fields `prepare_excel_data` adds afterwards). -/
structure Agg where
  order_number : Option String := Option.none
  total_amount : ℚ := 0
  line_count : ℕ := 0
  collaborators : List String := []
  cost_centers : List String := []
  statement_dates : List ℤ := []
  suppliers : List String := []
  source_files : List String := []
  projects : List String := []
  raw_lines : List ExcelRecord := []
  validation_summary : ValidationSummary := {}
  data_quality_score : ℚ := 0
  amount_per_collaborator : ℚ := 0
  billing_period_start : Option ℤ := Option.none
  billing_period_end : Option ℤ := Option.none
deriving DecidableEq, Repr

/-- Dict keys: after `prepare_excel_data`'s key cleaning a key can be `None`. -/
abbrev OKey := Option String

/-- The aggregated-orders dict, as an insertion-ordered association list. -/
abbrev ExcelMap := List (OKey × Agg)

/-- Dict lookup (first matching key). -/
def dlookup (m : ExcelMap) (k : OKey) : Option Agg :=
  match m with
  | [] => Option.none
  | kv :: rest => if kv.1 = k then some kv.2 else dlookup rest k

/-- Dict membership. -/
def dcontains (m : ExcelMap) (k : OKey) : Bool :=
  match m with
  | [] => false
  | kv :: rest => kv.1 = k || dcontains rest k

/-- Dict assignment: replace in place if the key exists, else append. -/
def dset (m : ExcelMap) (k : OKey) (d : Agg) : ExcelMap :=
  match m with
  | [] => [(k, d)]
  | kv :: rest => if kv.1 = k then (k, d) :: rest else kv :: dset rest k d

/-- Update the value stored at a key (no-op if absent). -/
def dmodify (m : ExcelMap) (k : OKey) (f : Agg → Agg) : ExcelMap :=
  match m with
  | [] => []
  | kv :: rest => if kv.1 = k then (kv.1, f kv.2) :: rest else kv :: dmodify rest k f

/-- Dict `pop`: remove the entry with the given key. -/
def dremove (m : ExcelMap) (k : OKey) : ExcelMap :=
  match m with
  | [] => []
  | kv :: rest => if kv.1 = k then rest else kv :: dremove rest k

end Beeline

namespace Beeline.ExcelProcessor

open Beeline

/-- One record folded into its order aggregate (the body of the main loop in
`aggregate_by_order_number`, as one simultaneous field update; note the source
checks raw membership before appending the stripped value, so stripped
duplicates are possible). -/
def updateAgg (order_data : Agg) (record : ExcelRecord) : Agg :=
  { order_data with
    total_amount :=
      match record.net_amount with
      | some q => order_data.total_amount + q
      | Option.none => order_data.total_amount
    line_count := order_data.line_count + 1
    collaborators :=
      match record.collaborator with
      | some c =>
        if c ≠ "" && !(order_data.collaborators.contains c) then
          order_data.collaborators ++ [pyStrip c]
        else order_data.collaborators
      | Option.none => order_data.collaborators
    cost_centers :=
      match record.cost_center with
      | some c =>
        if c ≠ "" && !(order_data.cost_centers.contains c) then
          order_data.cost_centers ++ [pyStrip c]
        else order_data.cost_centers
      | Option.none => order_data.cost_centers
    statement_dates :=
      match record.statement_date with
      | some dt =>
        if !(order_data.statement_dates.contains dt) then
          order_data.statement_dates ++ [dt]
        else order_data.statement_dates
      | Option.none => order_data.statement_dates
    suppliers :=
      match record.supplier with
      | some c =>
        if c ≠ "" && !(order_data.suppliers.contains c) then
          order_data.suppliers ++ [pyStrip c]
        else order_data.suppliers
      | Option.none => order_data.suppliers
    projects :=
      match record.project with
      | some c =>
        if c ≠ "" && !(order_data.projects.contains c) then
          order_data.projects ++ [pyStrip c]
        else order_data.projects
      | Option.none => order_data.projects
    source_files :=
      match record.source_filename with
      | some c =>
        if c ≠ "" && !(order_data.source_files.contains c) then
          order_data.source_files ++ [c]
        else order_data.source_files
      | Option.none => order_data.source_files
    raw_lines := order_data.raw_lines ++ [record]
    validation_summary :=
      { order_data.validation_summary with
        total_lines := order_data.validation_summary.total_lines + 1
        valid_lines :=
          if record.is_valid then order_data.validation_summary.valid_lines + 1
          else order_data.validation_summary.valid_lines
        invalid_lines :=
          if record.is_valid then order_data.validation_summary.invalid_lines
          else order_data.validation_summary.invalid_lines + 1 } }

/-- The per-record step of `aggregate_by_order_number`: skip invalid lines and
lines without an order number, create the group on first sight, fold the
record in. -/
def agg_step (aggregated : ExcelMap) (record : ExcelRecord) : ExcelMap :=
  if !record.is_valid then aggregated
  else if !truthyStr record.order_number then aggregated
  else
    let order_key : OKey := some (pyStrip (pyStr record.order_number))
    let m :=
      if dcontains aggregated order_key then aggregated
      else aggregated ++ [(order_key, { order_number := order_key : Agg })]
    dmodify m order_key (fun d => updateAgg d record)

/-- The final validity-rate pass of `aggregate_by_order_number`. -/
def finalize_rate (kv : OKey × Agg) : OKey × Agg :=
  let d := kv.2
  ( kv.1
  , if d.validation_summary.total_lines > 0 then
      { d with validation_summary :=
        { d.validation_summary with validity_rate :=
            (d.validation_summary.valid_lines : ℚ) / (d.validation_summary.total_lines : ℚ) * 100 } }
    else d )

/-- `excel_processor.aggregate_by_order_number`: group the valid lines by
order number and compute each group's validity rate. -/
def aggregate_by_order_number (excel_data : List ExcelRecord) : ExcelMap :=
  (excel_data.foldl agg_step []).map finalize_rate

end Beeline.ExcelProcessor

namespace Beeline.Reconciliation

open Beeline

/-- Run configuration (`self.config`). The engine's own defaults carry the
first five keys; `enable_reference_matching` and `extended_tolerance_factor`
are merged in from the caller's config dict by `self.config.update(config)`
and — as proved below — never read by any matching code. -/
structure Config where
  tolerance : ℚ := 1/100
  method : String := "intelligent"
  fuzzy_threshold : ℚ := 8/10
  date_tolerance_days : ℤ := 30
  min_confidence : ℚ := 7/10
  enable_reference_matching : Bool := false
  extended_tolerance_factor : ℚ := 5
deriving DecidableEq, Repr

/-- `reconciliation.calculate_excel_quality_score`. -/
def calculate_excel_quality_score (excel_order : Agg) : ℚ :=
  let score : ℚ :=
    (if truthyStr excel_order.order_number then 4/10 else 0) +
    (if excel_order.total_amount > 0 then 3/10 else 0) +
    (if excel_order.collaborators ≠ [] then 2/10 else 0) +
    (if excel_order.line_count > 0 then 1/10 else 0)
  let validity_rate := excel_order.validation_summary.validity_rate
  min 1 (score * (validity_rate / 100))

/-- The per-aggregate enrichment performed inside `prepare_excel_data`'s loop
(quality score, amount per collaborator, billing period from the parsed
statement dates). -/
def enrich (order_data : Agg) : Agg :=
  let d := { order_data with data_quality_score := calculate_excel_quality_score order_data }
  let d := { d with amount_per_collaborator :=
      if d.collaborators ≠ [] then d.total_amount / (d.collaborators.length : ℚ) else 0 }
  match d.statement_dates with
  | [] => d
  | x :: xs =>
      { d with billing_period_start := some (xs.foldl min x)
               billing_period_end := some (xs.foldl max x) }

/-- `reconciliation.prepare_excel_data`: aggregate the lines, then clean every
dict key with `clean_order_number` (moving the entry when the key changes, as
the source's `aggregated[clean] = aggregated.pop(key)` does) and enrich each
aggregate. Re-visits of moved entries are no-ops (cleaning is idempotent),
so a single pass over the original entries is faithful. -/
def prepare_excel_data (excel_data : List ExcelRecord) : ExcelMap :=
  let aggregated := ExcelProcessor.aggregate_by_order_number excel_data
  aggregated.foldl
    (fun cur kv =>
      match dlookup cur kv.1 with
      | Option.none => cur
      | some order_data =>
        let clean_order := clean_order_number kv.1
        if clean_order ≠ kv.1 then
          let d := { order_data with order_number := clean_order }
          dset (dremove cur kv.1) clean_order (enrich d)
        else dmodify cur kv.1 enrich)
    aggregated

/-- `MatchType` (the `unmatched` member exists in the source but is never
attached to a `MatchResult`). -/
inductive MatchType
  | perfect_match
  | discrepancy
  | unmatched
deriving DecidableEq, Repr

/-- `MatchType.value`. -/
def MatchType.value : MatchType → String
  | .perfect_match => "perfect_match"
  | .discrepancy => "discrepancy"
  | .unmatched => "unmatched"

/-- `MatchMethod` — note there is no reference-cross member. -/
inductive MatchMethod
  | exact_order
  | partial_order
  | amount_fuzzy
  | supplier_date
  | intelligent
deriving DecidableEq, Repr

/-- `MatchMethod.value`. -/
def MatchMethod.value : MatchMethod → String
  | .exact_order => "exact_order"
  | .partial_order => "partial_order"
  | .amount_fuzzy => "amount_fuzzy"
  | .supplier_date => "supplier_date"
  | .intelligent => "intelligent"

/-- The `differences` dict of a match result (method-specific keys are
optional; absent keys are `none`/`[]`). -/
structure Differences where
  amount_difference : ℚ := 0
  amount_percentage : ℚ := 0
  order_similarity : Option ℚ := Option.none
  extended_tolerance_used : Option ℚ := Option.none
  confidence_factors : List (String × ℚ) := []
deriving DecidableEq, Repr

/-- `MatchResult` (the timestamp metadata is omitted). -/
structure MatchResultT where
  match_type : MatchType
  method : MatchMethod
  confidence : ℚ
  pdf_data : Pdf
  excel_data : Agg
  differences : Differences
deriving DecidableEq, Repr

/-- `reconciliation.dates_are_coherent`. -/
def dates_are_coherent (cfg : Config) (pdf : Pdf) (excel_order : Agg) : Bool :=
  match pdf.invoice_date with
  | Option.none => false
  | some pdf_date =>
    let excel_dates :=
      (match excel_order.billing_period_start with | some d => [d] | Option.none => []) ++
      (match excel_order.billing_period_end with | some d => [d] | Option.none => [])
    if excel_dates.isEmpty then false
    else excel_dates.any fun ed => |pdf_date - ed| ≤ cfg.date_tolerance_days

/-- `reconciliation.suppliers_are_coherent`. -/
def suppliers_are_coherent (pdf : Pdf) (excel_order : Agg) : Bool :=
  let pdf_supplier := pyLower pdf.supplier
  let excel_suppliers := excel_order.suppliers.map pyLower
  if pdf_supplier = "" || excel_suppliers.isEmpty then false
  else excel_suppliers.any fun es => calculate_string_similarity pdf_supplier es > 8/10

/-- `reconciliation.calculate_date_similarity`. -/
def calculate_date_similarity (cfg : Config) (pdf_date : Option ℤ) (excel_order : Agg) : ℚ :=
  match pdf_date with
  | Option.none => 0
  | some pd =>
    let excel_dates :=
      (match excel_order.billing_period_start with | some d => [d] | Option.none => []) ++
      (match excel_order.billing_period_end with | some d => [d] | Option.none => [])
    match excel_dates.map (fun ed => |pd - ed|) with
    | [] => 0
    | x :: xs =>
      let min_diff := xs.foldl min x
      if min_diff ≤ cfg.date_tolerance_days then
        1 - (min_diff : ℚ) / (cfg.date_tolerance_days : ℚ)
      else 0

/-- `reconciliation.try_exact_match`: unconditional acceptance on an exact
order-number hit; `PerfectMatch` inside tolerance, otherwise `Discrepancy`
with confidence `max(0.1, 1 − diff/amount)`. -/
def try_exact_match (cfg : Config) (pdf : Pdf) (excel_data : ExcelMap) : Option MatchResultT :=
  if !truthyStr pdf.order_number then Option.none
  else
    match dlookup excel_data pdf.order_number with
    | Option.none => Option.none
    | some excel_order =>
      let amount_diff := |pdf.amount - excel_order.total_amount|
      let amount_tolerance := pdf.amount * cfg.tolerance
      let mt : MatchType × ℚ :=
        if amount_diff ≤ amount_tolerance then (.perfect_match, 1)
        else (.discrepancy, max (1/10) (1 - amount_diff / pdf.amount))
      some
        { match_type := mt.1
          method := .exact_order
          confidence := mt.2
          pdf_data := pdf
          excel_data := excel_order
          differences :=
            { amount_difference := amount_diff
              amount_percentage := if pdf.amount > 0 then amount_diff / pdf.amount * 100 else 0 } }

/-- The per-candidate body of `try_partial_match`'s loop (`acc` is the pair of
the best confidence so far and the best match so far). -/
def partial_scan_step (cfg : Config) (pdf : Pdf) (excel_data : ExcelMap)
    (acc : ℚ × Option MatchResultT) (excel_order_key : OKey) : ℚ × Option MatchResultT :=
  let pdf_order := pyStr pdf.order_number
  let excel_order_str := pyStr excel_order_key
  let similarity := calculate_string_similarity pdf_order excel_order_str
  if similarity ≥ cfg.fuzzy_threshold then
    match dlookup excel_data excel_order_key with
    | Option.none => acc  -- a key absent from the dict would raise in Python;
                          -- in the pipeline the available keys always come from the dict
    | some excel_order =>
      let amount_factor := calculate_amount_confidence pdf.amount excel_order.total_amount
      let combined_confidence := similarity * (6/10) + amount_factor * (4/10)
      if combined_confidence > acc.1 then
        let amount_diff := |pdf.amount - excel_order.total_amount|
        let match_type : MatchType :=
          if amount_diff ≤ pdf.amount * cfg.tolerance then .perfect_match else .discrepancy
        ( combined_confidence
        , some
            { match_type
              method := .partial_order
              confidence := combined_confidence
              pdf_data := pdf
              excel_data := excel_order
              differences :=
                { amount_difference := amount_diff
                  amount_percentage :=
                    if pdf.amount > 0 then amount_diff / pdf.amount * 100 else 0
                  order_similarity := some similarity } } )
      else acc
  else acc

/-- `reconciliation.try_partial_match`: best fuzzy order-number candidate among
the still-available aggregates. -/
def try_partial_match (cfg : Config) (pdf : Pdf) (excel_data : ExcelMap)
    (available_orders : List OKey) : Option MatchResultT :=
  let pdf_order := pyStr pdf.order_number
  if pdf_order.length < 4 then Option.none
  else
    (available_orders.foldl (partial_scan_step cfg pdf excel_data)
      ((0 : ℚ), (Option.none : Option MatchResultT))).2

/-- The per-candidate body of `try_amount_fuzzy_match`'s loop (the extended
window is a value fixed by `pdf` and `cfg`, recomputed here verbatim). -/
def fuzzy_scan_step (cfg : Config) (pdf : Pdf) (excel_data : ExcelMap)
    (acc : ℚ × Option MatchResultT) (excel_order_key : OKey) : ℚ × Option MatchResultT :=
  let pdf_amount := pdf.amount
  let extended_tolerance := pdf_amount * (cfg.tolerance * 5)
  match dlookup excel_data excel_order_key with
  | Option.none => acc
  | some excel_order =>
    let excel_amount := excel_order.total_amount
    let amount_diff := |pdf_amount - excel_amount|
    if amount_diff ≤ extended_tolerance then
      let confidence := 1 - amount_diff / extended_tolerance
      let confidence :=
        if dates_are_coherent cfg pdf excel_order then confidence * (12/10) else confidence
      let confidence :=
        if suppliers_are_coherent pdf excel_order then confidence * (11/10) else confidence
      let confidence := min 1 confidence
      if confidence > acc.1 then
        let match_type : MatchType :=
          if amount_diff ≤ pdf_amount * cfg.tolerance then .perfect_match else .discrepancy
        ( confidence
        , some
            { match_type
              method := .amount_fuzzy
              confidence
              pdf_data := pdf
              excel_data := excel_order
              differences :=
                { amount_difference := amount_diff
                  amount_percentage := amount_diff / pdf_amount * 100
                  extended_tolerance_used := some extended_tolerance } } )
      else acc
    else acc

/-- `reconciliation.try_amount_fuzzy_match`: candidates inside the extended
window `amount × (tolerance × 5)` (the factor 5 is a literal in the source),
confidence `1 − diff/window` boosted ×1.2 for coherent dates and ×1.1 for
coherent suppliers, capped at 1. -/
def try_amount_fuzzy_match (cfg : Config) (pdf : Pdf) (excel_data : ExcelMap)
    (available_orders : List OKey) : Option MatchResultT :=
  if pdf.amount ≤ 0 then Option.none
  else
    (available_orders.foldl (fuzzy_scan_step cfg pdf excel_data)
      ((0 : ℚ), (Option.none : Option MatchResultT))).2

/-- The maximal supplier string similarity used by the contextual phase
(the guard in `contextual_factors` keeps the supplier list nonempty). -/
def supplier_similarity (pdf : Pdf) (excel_order : Agg) : ℚ :=
  match excel_order.suppliers.map (calculate_string_similarity pdf.supplier) with
  | [] => 0
  | x :: xs => xs.foldl max x

/-- The `confidence_factors` list built inside `try_contextual_match`'s loop:
`(name, score, weight)` triples. -/
def contextual_factors (cfg : Config) (pdf : Pdf) (excel_order : Agg) :
    List (String × ℚ × ℚ) :=
  (if pdf.supplier ≠ "" && !excel_order.suppliers.isEmpty then
    [("supplier", supplier_similarity pdf excel_order, 4/10)]
   else []) ++
  (if pdf.invoice_date.isSome then
    [("date", calculate_date_similarity cfg pdf.invoice_date excel_order, 3/10)]
   else []) ++
  [("amount", calculate_amount_confidence pdf.amount excel_order.total_amount, 3/10)]

/-- The weighted combined confidence of `try_contextual_match`'s loop. -/
def contextual_combined (cfg : Config) (pdf : Pdf) (excel_order : Agg) : ℚ :=
  let fs := contextual_factors cfg pdf excel_order
  let total_weight := (fs.map fun f => f.2.2).sum
  (fs.map fun f => f.2.1 * (f.2.2 / total_weight)).sum

/-- The per-candidate body of `try_contextual_match`'s loop. -/
def contextual_scan_step (cfg : Config) (pdf : Pdf) (excel_data : ExcelMap)
    (acc : ℚ × Option MatchResultT) (excel_order_key : OKey) : ℚ × Option MatchResultT :=
  match dlookup excel_data excel_order_key with
  | Option.none => acc
  | some excel_order =>
    let confidence_factors := contextual_factors cfg pdf excel_order
    if confidence_factors.isEmpty then acc
    else
      let combined_confidence := contextual_combined cfg pdf excel_order
      if combined_confidence > acc.1 ∧ combined_confidence ≥ 6/10 then
        let amount_diff := |pdf.amount - excel_order.total_amount|
        let match_type : MatchType :=
          if amount_diff ≤ pdf.amount * cfg.tolerance then .perfect_match else .discrepancy
        ( combined_confidence
        , some
            { match_type
              method := .supplier_date
              confidence := combined_confidence
              pdf_data := pdf
              excel_data := excel_order
              differences :=
                { amount_difference := amount_diff
                  amount_percentage :=
                    if pdf.amount > 0 then amount_diff / pdf.amount * 100 else 0
                  confidence_factors := confidence_factors.map fun f => (f.1, f.2.1) } } )
      else acc

/-- `reconciliation.try_contextual_match`: supplier/date/amount-weighted
candidate, kept only above the hard 0.6 floor. -/
def try_contextual_match (cfg : Config) (pdf : Pdf) (excel_data : ExcelMap)
    (available_orders : List OKey) : Option MatchResultT :=
  if pdf.supplier = "" && pdf.invoice_date.isNone then Option.none
  else
    (available_orders.foldl (contextual_scan_step cfg pdf excel_data)
      ((0 : ℚ), (Option.none : Option MatchResultT))).2

end Beeline.Reconciliation

namespace Beeline.Reconciliation

open Beeline

/-- A formatted match row (`format_match_result`; timestamp metadata omitted). -/
structure FormattedMatch where
  type : String
  method : String
  confidence : ℚ
  order_number : OKey
  pdf_file : String
  pdf_amount : ℚ
  excel_amount : ℚ
  difference : ℚ
  difference_percent : ℚ
  collaborators : String
  supplier : String
  invoice_id : Option String
  invoice_date : Option ℤ
  excel_line_count : ℕ
deriving DecidableEq, Repr

/-- `reconciliation.format_match_result`. -/
def format_match_result (m : MatchResultT) : FormattedMatch :=
  { type := m.match_type.value
    method := m.method.value
    confidence := pyRound m.confidence 3
    order_number := m.excel_data.order_number
    pdf_file := m.pdf_data.filename
    pdf_amount := m.pdf_data.amount
    excel_amount := m.excel_data.total_amount
    difference := m.differences.amount_difference
    difference_percent := pyRound m.differences.amount_percentage 2
    collaborators := String.intercalate ", " m.excel_data.collaborators
    supplier := m.pdf_data.supplier
    invoice_id := m.pdf_data.invoice_id
    invoice_date := m.pdf_data.invoice_date
    excel_line_count := m.excel_data.line_count }

/-- One diagnostic reason of `format_unmatched_pdf` (rendered as a French
string in the source; the data it carries is kept instead). -/
inductive UnmatchedReason
  | missing_order
  | invalid_amount
  | low_quality
  | best_attempt (method : String) (confidence : ℚ)
  | no_match
deriving DecidableEq, Repr

/-- A formatted unmatched invoice (`format_unmatched_pdf`). -/
structure UnmatchedPdf where
  filename : String
  order_number : Option String
  amount : ℚ
  invoice_id : Option String
  invoice_date : Option ℤ
  supplier : String
  data_quality_score : ℚ
  reasons : List UnmatchedReason
deriving DecidableEq, Repr

/-- First maximal-confidence attempt (Python `max(attempts, key=lambda x: x[1])`). -/
def bestAttempt : List (String × ℚ) → Option (String × ℚ)
  | [] => Option.none
  | x :: xs => some (xs.foldl (fun b y => if y.2 > b.2 then y else b) x)

/-- `reconciliation.format_unmatched_pdf` (`match_attempts` is the pdf's
attempt list, `[]` when the key was never set). -/
def format_unmatched_pdf (pdf : Pdf) (match_attempts : List (String × ℚ)) : UnmatchedPdf :=
  let reasons :=
    (if !truthyStr pdf.order_number then [UnmatchedReason.missing_order] else []) ++
    (if pdf.amount ≤ 0 then [UnmatchedReason.invalid_amount] else []) ++
    (if pdf.data_quality_score < 1/2 then [UnmatchedReason.low_quality] else []) ++
    (match bestAttempt match_attempts with
     | some a => [UnmatchedReason.best_attempt a.1 a.2]
     | Option.none => [UnmatchedReason.no_match])
  { filename := pdf.filename
    order_number := pdf.order_number
    amount := pdf.amount
    invoice_id := pdf.invoice_id
    invoice_date := pdf.invoice_date
    supplier := pdf.supplier
    data_quality_score := pdf.data_quality_score
    reasons := reasons }

/-- One row of `results["match_details"]`. -/
structure MatchDetail where
  method : String
  confidence : ℚ
  type : String
  pdf_file : String
  excel_order : OKey
deriving DecidableEq, Repr

/-- The mutable `results` dict during matching (`unmatched_excel` still holds
dict keys at this stage; `post_process_results` formats it later). -/
structure RawResults where
  «matches» : List FormattedMatch := []
  discrepancies : List FormattedMatch := []
  unmatched_pdf : List UnmatchedPdf := []
  unmatched_excel : List OKey := []
  match_details : List MatchDetail := []
deriving DecidableEq, Repr

/-- Per-method entry of `stats["method_performance"]`. -/
structure MethodStat where
  count : ℕ := 0
  avg_confidence : ℚ := 0
deriving DecidableEq, Repr

/-- The engine's `self.stats` (processing time omitted). -/
structure Stats where
  total_pdfs : ℕ := 0
  total_excel_orders : ℕ := 0
  perfect_matches : ℕ := 0
  discrepancies : ℕ := 0
  unmatched_pdf : ℕ := 0
  unmatched_excel : ℕ := 0
  method_performance : List (String × MethodStat) := []
deriving DecidableEq, Repr

/-- Remove the first occurrence of a key from `unmatched_excel`
(`list.remove`, guarded by the membership test in the source). -/
def listEraseKey (l : List OKey) (k : OKey) : List OKey :=
  match l with
  | [] => []
  | x :: xs => if x = k then xs else x :: listEraseKey xs k

/-- The method-performance bookkeeping of `process_match_result`. -/
def msUpdate (mp : List (String × MethodStat)) (name : String) (conf : ℚ) :
    List (String × MethodStat) :=
  let mp := if mp.any (fun e => e.1 = name) then mp else mp ++ [(name, { count := 0, avg_confidence := 0 })]
  mp.map fun e =>
    if e.1 = name then
      let count := e.2.count + 1
      (e.1, { count := count
              avg_confidence := (e.2.avg_confidence * ((count : ℚ) - 1) + conf) / (count : ℚ) })
    else e

/-- `reconciliation.process_match_result`: consume the aggregate key, classify
the formatted row into matches or discrepancies, record the detail row and the
per-method stats. (The source also deletes the pdf's `match_attempts` key
here, through the shared dict; the phase steps below perform that state
change on their side of the embedding.) -/
def process_match_result (m : MatchResultT) (res : RawResults) (stats : Stats) :
    RawResults × Stats :=
  let excel_order_number := m.excel_data.order_number
  let res := { res with unmatched_excel := listEraseKey res.unmatched_excel excel_order_number }
  let formatted := format_match_result m
  let res :=
    if m.match_type = MatchType.perfect_match then
      { res with «matches» := res.«matches» ++ [formatted] }
    else
      { res with discrepancies := res.discrepancies ++ [formatted] }
  let stats :=
    if m.match_type = MatchType.perfect_match then
      { stats with perfect_matches := stats.perfect_matches + 1 }
    else
      { stats with discrepancies := stats.discrepancies + 1 }
  let res :=
    { res with match_details := res.match_details ++
        [{ method := m.method.value
           confidence := m.confidence
           type := m.match_type.value
           pdf_file := m.pdf_data.filename
           excel_order := excel_order_number }] }
  (res, { stats with method_performance := msUpdate stats.method_performance m.method.value m.confidence })

/-- The per-invoice pipeline state: the prepared pdf plus its
`match_attempts` entry (`none` models the key being absent — either not yet
given one in phase 1 or deleted on acceptance). -/
structure PdfSt where
  pdf : Pdf
  match_attempts : Option (List (String × ℚ)) := Option.none
deriving DecidableEq, Repr

/-- Accumulated results and stats threaded through the phases. -/
structure Acc where
  res : RawResults
  stats : Stats
deriving DecidableEq, Repr

/-- Run one phase over the invoice states in order, threading the accumulator
(the source's per-phase `for` loop over the snapshot of pending pdfs; the
snapshot filter is modelled by each step ignoring non-pending states). -/
def runPhase (step : PdfSt → Acc → PdfSt × Acc) : List PdfSt → Acc → List PdfSt × Acc
  | [], acc => ([], acc)
  | st :: rest, acc =>
    let p := step st acc
    let q := runPhase step rest p.2
    (p.1 :: q.1, q.2)

/-- Phase 1 body: exact match accepted unconditionally, otherwise the pdf
receives an empty `match_attempts` list. -/
def step_exact (cfg : Config) (excel_data : ExcelMap) (st : PdfSt) (acc : Acc) : PdfSt × Acc :=
  match try_exact_match cfg st.pdf excel_data with
  | some m =>
    let rs := process_match_result m acc.res acc.stats
    ({ st with match_attempts := Option.none }, { res := rs.1, stats := rs.2 })
  | Option.none => ({ st with match_attempts := some [] }, acc)

/-- Phase 2 body: partial match, accepted only at `min_confidence`; a rejected
attempt is recorded on the pdf. -/
def step_partial_order (cfg : Config) (excel_data : ExcelMap) (st : PdfSt) (acc : Acc) : PdfSt × Acc :=
  match st.match_attempts with
  | Option.none => (st, acc)
  | some att =>
    match try_partial_match cfg st.pdf excel_data acc.res.unmatched_excel with
    | some m =>
      if m.confidence ≥ cfg.min_confidence then
        let rs := process_match_result m acc.res acc.stats
        ({ st with match_attempts := Option.none }, { res := rs.1, stats := rs.2 })
      else ({ st with match_attempts := some (att ++ [("partial", m.confidence)]) }, acc)
    | Option.none => (st, acc)

/-- Phase 3 body: amount-fuzzy match, accepted only at `min_confidence`. -/
def step_amount_fuzzy (cfg : Config) (excel_data : ExcelMap) (st : PdfSt) (acc : Acc) :
    PdfSt × Acc :=
  match st.match_attempts with
  | Option.none => (st, acc)
  | some att =>
    match try_amount_fuzzy_match cfg st.pdf excel_data acc.res.unmatched_excel with
    | some m =>
      if m.confidence ≥ cfg.min_confidence then
        let rs := process_match_result m acc.res acc.stats
        ({ st with match_attempts := Option.none }, { res := rs.1, stats := rs.2 })
      else ({ st with match_attempts := some (att ++ [("amount_fuzzy", m.confidence)]) }, acc)
    | Option.none => (st, acc)

/-- Phase 4 body: contextual match, accepted only at `min_confidence`;
otherwise the invoice is definitively unmatched. -/
def step_contextual (cfg : Config) (excel_data : ExcelMap) (st : PdfSt) (acc : Acc) :
    PdfSt × Acc :=
  match st.match_attempts with
  | Option.none => (st, acc)
  | some att =>
    match try_contextual_match cfg st.pdf excel_data acc.res.unmatched_excel with
    | some m =>
      if m.confidence ≥ cfg.min_confidence then
        let rs := process_match_result m acc.res acc.stats
        ({ st with match_attempts := Option.none }, { res := rs.1, stats := rs.2 })
      else
        (st, { acc with res := { acc.res with
            unmatched_pdf := acc.res.unmatched_pdf ++ [format_unmatched_pdf st.pdf att] } })
    | Option.none =>
      (st, { acc with res := { acc.res with
          unmatched_pdf := acc.res.unmatched_pdf ++ [format_unmatched_pdf st.pdf att] } })

/-- `reconciliation.intelligent_reconciliation`: the four phases in order,
breadth-first over all still-pending invoices. -/
def intelligent_reconciliation (cfg : Config) (pdf_data : List Pdf) (excel_data : ExcelMap)
    (stats : Stats) : RawResults × Stats :=
  let res0 : RawResults := { unmatched_excel := excel_data.map (fun kv => kv.1) }
  let sts0 : List PdfSt := pdf_data.map fun p => { pdf := p }
  let r1 := runPhase (step_exact cfg excel_data) sts0 { res := res0, stats := stats }
  let r2 := runPhase (step_partial_order cfg excel_data) r1.1 r1.2
  let r3 := runPhase (step_amount_fuzzy cfg excel_data) r2.1 r2.2
  let r4 := runPhase (step_contextual cfg excel_data) r3.1 r3.2
  (r4.2.res, r4.2.stats)

/-- The loop body of `exact_reconciliation`: exact match or immediately
unmatched. -/
def exact_only_step (cfg : Config) (excel_data : ExcelMap) (acc : RawResults × Stats)
    (pdf : Pdf) : RawResults × Stats :=
  match try_exact_match cfg pdf excel_data with
  | some m => process_match_result m acc.1 acc.2
  | Option.none =>
    ({ acc.1 with unmatched_pdf := acc.1.unmatched_pdf ++ [format_unmatched_pdf pdf []] },
     acc.2)

/-- `reconciliation.exact_reconciliation`: exact phase only; a pdf without an
exact hit is immediately unmatched. -/
def exact_reconciliation (cfg : Config) (pdf_data : List Pdf) (excel_data : ExcelMap)
    (stats : Stats) : RawResults × Stats :=
  pdf_data.foldl (exact_only_step cfg excel_data)
    ({ unmatched_excel := excel_data.map (fun kv => kv.1) }, stats)

/-- The phase-1 loop body of `partial_reconciliation`: exact match, or flag the
pdf as needing a partial match. -/
def partial_flag_step (cfg : Config) (excel_data : ExcelMap)
    (acc : List (Pdf × Bool) × RawResults × Stats) (pdf : Pdf) :
    List (Pdf × Bool) × RawResults × Stats :=
  match try_exact_match cfg pdf excel_data with
  | some m =>
    let rs := process_match_result m acc.2.1 acc.2.2
    (acc.1 ++ [(pdf, false)], rs.1, rs.2)
  | Option.none => (acc.1 ++ [(pdf, true)], acc.2.1, acc.2.2)

/-- The phase-2 loop body of `partial_reconciliation`: flagged pdfs get a
partial match at `min_confidence`, or become unmatched. -/
def partial_second_step (cfg : Config) (excel_data : ExcelMap) (acc : RawResults × Stats)
    (pb : Pdf × Bool) : RawResults × Stats :=
  if pb.2 then
    match try_partial_match cfg pb.1 excel_data acc.1.unmatched_excel with
    | some m =>
      if m.confidence ≥ cfg.min_confidence then process_match_result m acc.1 acc.2
      else
        ({ acc.1 with unmatched_pdf := acc.1.unmatched_pdf ++ [format_unmatched_pdf pb.1 []] },
         acc.2)
    | Option.none =>
      ({ acc.1 with unmatched_pdf := acc.1.unmatched_pdf ++ [format_unmatched_pdf pb.1 []] },
       acc.2)
  else acc

/-- `reconciliation.partial_reconciliation`: exact phase, then partial for the
flagged leftovers. -/
def partial_reconciliation (cfg : Config) (pdf_data : List Pdf) (excel_data : ExcelMap)
    (stats : Stats) : RawResults × Stats :=
  let r1 := pdf_data.foldl (partial_flag_step cfg excel_data)
    ([], { unmatched_excel := excel_data.map (fun kv => kv.1) }, stats)
  r1.1.foldl (partial_second_step cfg excel_data) (r1.2.1, r1.2.2)

end Beeline.Reconciliation

namespace Beeline.Reconciliation

open Beeline

/-- A formatted unmatched aggregate (`post_process_results`). -/
structure UnmatchedExcel where
  order_number : OKey
  total_amount : ℚ
  collaborators : String
  line_count : ℕ
  source_files : String
  reason : String := "Aucun PDF correspondant trouvé"
deriving DecidableEq, Repr

/-- `results["totals"]`. -/
structure Totals where
  total_pdf_amount : ℚ := 0
  total_excel_amount : ℚ := 0
  difference : ℚ := 0
deriving DecidableEq, Repr

/-- `results["discrepancy_analysis"]`. -/
structure DiscrepancyAnalysis where
  total_discrepancy : ℚ
  average_discrepancy : ℚ
  max_discrepancy : ℚ
  min_discrepancy : ℚ
deriving DecidableEq, Repr

/-- The results dict after `post_process_results`. -/
structure PostResults where
  «matches» : List FormattedMatch
  discrepancies : List FormattedMatch
  unmatched_pdf : List UnmatchedPdf
  unmatched_excel : List UnmatchedExcel
  match_details : List MatchDetail
  totals : Totals
  discrepancy_analysis : Option DiscrepancyAnalysis
deriving DecidableEq, Repr

/-- `reconciliation.post_process_results`. -/
def post_process_results (res : RawResults) (pdf_data : List Pdf) (excel_data : ExcelMap) :
    PostResults :=
  let unmatched_excel_formatted := res.unmatched_excel.foldl
    (fun out k =>
      match dlookup excel_data k with
      | some e =>
        out ++ [{ order_number := k
                  total_amount := e.total_amount
                  collaborators := String.intercalate ", " e.collaborators
                  line_count := e.line_count
                  source_files := String.intercalate ", " e.source_files : UnmatchedExcel }]
      | Option.none => out)
    []
  let total_pdf_amount := ((pdf_data.filter fun p => p.amount > 0).map fun p => p.amount).sum
  let total_excel_amount := (excel_data.map fun kv => kv.2.total_amount).sum
  let disc : Option DiscrepancyAnalysis :=
    match res.discrepancies.map (fun d => d.difference) with
    | [] => Option.none
    | x :: xs =>
      some { total_discrepancy := (x :: xs).sum
             average_discrepancy := (x :: xs).sum / (((x :: xs).length : ℕ) : ℚ)
             max_discrepancy := xs.foldl max x
             min_discrepancy := xs.foldl min x }
  { «matches» := res.«matches»
    discrepancies := res.discrepancies
    unmatched_pdf := res.unmatched_pdf
    unmatched_excel := unmatched_excel_formatted
    match_details := res.match_details
    totals := { total_pdf_amount := total_pdf_amount
                total_excel_amount := total_excel_amount
                difference := |total_pdf_amount - total_excel_amount| }
    discrepancy_analysis := disc }

/-- One improvement recommendation (`generate_recommendations` renders these
as French strings; the data they carry is kept instead). -/
inductive Recommendation
  | low_matching_rate
  | low_coverage
  | unmatched_pdfs (n : ℕ)
  | unmatched_excels (n : ℕ)
  | large_discrepancies (avg : ℚ)
  | excellent
  | default_ok
deriving DecidableEq, Repr

/-- `reconciliation.generate_recommendations`. -/
def generate_recommendations (matching_rate coverage_rate : ℚ) (res : PostResults) :
    List Recommendation :=
  let recs :=
    (if matching_rate < 80 then [Recommendation.low_matching_rate] else []) ++
    (if coverage_rate < 90 then [Recommendation.low_coverage] else []) ++
    (if res.unmatched_pdf.length > 0 then [Recommendation.unmatched_pdfs res.unmatched_pdf.length] else []) ++
    (if res.unmatched_excel.length > 0 then [Recommendation.unmatched_excels res.unmatched_excel.length] else []) ++
    (match res.discrepancy_analysis with
     | some a => if a.average_discrepancy > 50 then [Recommendation.large_discrepancies a.average_discrepancy] else []
     | Option.none => []) ++
    (if matching_rate ≥ 95 ∧ coverage_rate ≥ 95 then [Recommendation.excellent] else [])
  if recs.isEmpty then [Recommendation.default_ok] else recs

/-- `quality_assessment`. -/
structure QualityAssessment where
  score : ℚ
  grade : String
  assessment : String
  recommendations : List Recommendation
deriving DecidableEq, Repr

/-- `reconciliation.assess_overall_quality`. -/
def assess_overall_quality (matching_rate coverage_rate : ℚ) (res : PostResults) :
    QualityAssessment :=
  let q1 := min 40 (matching_rate * (4/10))
  let q2 := min 30 (coverage_rate * (3/10))
  let q3 : ℚ :=
    match res.discrepancy_analysis with
    | some a =>
      let total_amount := res.totals.total_pdf_amount
      let discrepancy_rate := if total_amount > 0 then a.average_discrepancy / total_amount * 100 else 0
      if discrepancy_rate ≤ 1 then 20
      else if discrepancy_rate ≤ 5 then 15
      else if discrepancy_rate ≤ 10 then 10
      else 0
    | Option.none => 20
  let q4 : ℚ :=
    if !res.match_details.isEmpty then
      (res.match_details.map fun d => d.confidence).sum / ((res.match_details.length : ℕ) : ℚ) * 10
    else 0
  let quality_score := q1 + q2 + q3 + q4
  let ga : String × String :=
    if quality_score ≥ 90 then ("A", "Excellent")
    else if quality_score ≥ 80 then ("B", "Très bon")
    else if quality_score ≥ 70 then ("C", "Correct")
    else if quality_score ≥ 60 then ("D", "Passable")
    else ("F", "Insuffisant")
  { score := pyRound quality_score 1
    grade := ga.1
    assessment := ga.2
    recommendations := generate_recommendations matching_rate coverage_rate res }

/-- `results["summary"]`. -/
structure Summary where
  total_invoices : ℕ
  total_excel_lines : ℕ
  total_excel_orders : ℕ
  perfect_matches : ℕ
  discrepancies : ℕ
  unmatched_pdf : ℕ
  unmatched_excel : ℕ
  matching_rate : ℚ
  discrepancy_rate : ℚ
  coverage_rate : ℚ
  total_amount : ℚ
  total_discrepancy_amount : ℚ
  method_performance : List (String × MethodStat)
  quality_assessment : QualityAssessment
deriving DecidableEq, Repr

/-- `reconciliation.generate_summary`. (`total_excel_lines` sums
`excel.get("line_count", 0)` over formatted rows, a key those rows do not
carry, so every summand is the default 0 — embedded faithfully.) -/
def generate_summary (stats : Stats) (res : PostResults) : Summary :=
  let total_pdfs := stats.total_pdfs
  let matches_count := res.«matches».length
  let discrepancies_count := res.discrepancies.length
  let matching_rate : ℚ :=
    if total_pdfs > 0 then (matches_count : ℚ) / (total_pdfs : ℚ) * 100 else 0
  let discrepancy_rate : ℚ :=
    if total_pdfs > 0 then (discrepancies_count : ℚ) / (total_pdfs : ℚ) * 100 else 0
  let coverage_rate : ℚ :=
    if total_pdfs > 0 then ((matches_count + discrepancies_count : ℕ) : ℚ) / (total_pdfs : ℚ) * 100
    else 0
  { total_invoices := total_pdfs
    total_excel_lines :=
      (((res.«matches» ++ res.discrepancies).filter fun m => m.excel_line_count ≠ 0).map
        fun _ => 0).sum
    total_excel_orders := stats.total_excel_orders
    perfect_matches := matches_count
    discrepancies := discrepancies_count
    unmatched_pdf := res.unmatched_pdf.length
    unmatched_excel := res.unmatched_excel.length
    matching_rate := pyRound matching_rate 2
    discrepancy_rate := pyRound discrepancy_rate 2
    coverage_rate := pyRound coverage_rate 2
    total_amount := res.totals.total_pdf_amount
    total_discrepancy_amount := (res.discrepancy_analysis.map fun a => a.total_discrepancy).getD 0
    method_performance := stats.method_performance
    quality_assessment := assess_overall_quality matching_rate coverage_rate res }

/-- The method dispatch of `perform_reconciliation` (any unknown method string
falls back to the intelligent pipeline). -/
def run_matching (cfg : Config) (pdfs : List Pdf) (excel : ExcelMap) (stats : Stats) :
    RawResults × Stats :=
  if cfg.method = "intelligent" then intelligent_reconciliation cfg pdfs excel stats
  else if cfg.method = "exact" then exact_reconciliation cfg pdfs excel stats
  else if cfg.method = "partiel" then partial_reconciliation cfg pdfs excel stats
  else intelligent_reconciliation cfg pdfs excel stats

/-- The complete result object returned by a successful run (processing-time
metadata omitted). -/
structure FinalResult where
  results : PostResults
  summary : Summary
deriving DecidableEq, Repr

/-- `reconciliation.perform_reconciliation` on a fresh engine: `none` on an
input models a non-list dataset, over which Python's iteration raises; the
`except` clause wraps and re-raises the exception, which the `Except.error`
branch models. Otherwise the pipeline runs to completion and returns the
result object. -/
def perform_reconciliation (cfg : Config) (pdf_data : Option (List PdfRaw))
    (excel_data : Option (List ExcelRecord)) : Except String FinalResult :=
  match pdf_data, excel_data with
  | some pdfs, some excels =>
    let prepared_pdfs := prepare_pdf_data pdfs
    let aggregated_excel := prepare_excel_data excels
    let stats0 : Stats := { total_pdfs := prepared_pdfs.length
                            total_excel_orders := aggregated_excel.length }
    let rs := run_matching cfg prepared_pdfs aggregated_excel stats0
    let post := post_process_results rs.1 prepared_pdfs aggregated_excel
    Except.ok { results := post, summary := generate_summary rs.2 post }
  | _, _ => Except.error "Erreur rapprochement: TypeError: object is not iterable"

end Beeline.Reconciliation

namespace Beeline.Reconciliation

open Beeline

/-! ### Bookkeeping lemmas for the phase loops -/

/-- Accepted-plus-unmatched row count of a results dict. -/
def rcount (res : RawResults) : ℕ :=
  res.«matches».length + res.discrepancies.length + res.unmatched_pdf.length

/-- 1 when the invoice still carries a `match_attempts` entry (pending), else 0. -/
def pending (st : PdfSt) : ℕ := if st.match_attempts.isSome then 1 else 0

theorem process_rcount (m : MatchResultT) (res : RawResults) (stats : Stats) :
    rcount (process_match_result m res stats).1 = rcount res + 1 := by
  unfold process_match_result rcount
  by_cases h : m.match_type = MatchType.perfect_match <;>
    simp [h, List.length_append] <;> omega

theorem step_exact_inv (cfg : Config) (excel : ExcelMap) (st : PdfSt) (acc : Acc) :
    rcount (step_exact cfg excel st acc).2.res + pending (step_exact cfg excel st acc).1
      = rcount acc.res + 1 := by
  unfold step_exact
  cases h : try_exact_match cfg st.pdf excel with
  | none => simp [pending]
  | some m => simp [pending, process_rcount]

theorem step_partial_inv (cfg : Config) (excel : ExcelMap) (st : PdfSt) (acc : Acc) :
    rcount (step_partial_order cfg excel st acc).2.res + pending (step_partial_order cfg excel st acc).1
      = rcount acc.res + pending st := by
  unfold step_partial_order
  cases hA : st.match_attempts with
  | none => simp [pending, hA]
  | some att =>
    cases hm : try_partial_match cfg st.pdf excel acc.res.unmatched_excel with
    | none => simp [pending, hA]
    | some m =>
      by_cases hc : m.confidence ≥ cfg.min_confidence <;>
        simp [pending, hA, hc, process_rcount]

theorem step_amount_fuzzy_inv (cfg : Config) (excel : ExcelMap) (st : PdfSt) (acc : Acc) :
    rcount (step_amount_fuzzy cfg excel st acc).2.res
        + pending (step_amount_fuzzy cfg excel st acc).1
      = rcount acc.res + pending st := by
  unfold step_amount_fuzzy
  cases hA : st.match_attempts with
  | none => simp [pending, hA]
  | some att =>
    cases hm : try_amount_fuzzy_match cfg st.pdf excel acc.res.unmatched_excel with
    | none => simp [pending, hA]
    | some m =>
      by_cases hc : m.confidence ≥ cfg.min_confidence <;>
        simp [pending, hA, hc, process_rcount]

theorem step_contextual_inv (cfg : Config) (excel : ExcelMap) (st : PdfSt) (acc : Acc) :
    rcount (step_contextual cfg excel st acc).2.res + 0
      = rcount acc.res + pending st := by
  unfold step_contextual
  cases hA : st.match_attempts with
  | none => simp [pending, hA]
  | some att =>
    cases hm : try_contextual_match cfg st.pdf excel acc.res.unmatched_excel with
    | none => simp [pending, hA, rcount, List.length_append]; omega
    | some m =>
      have hp := process_rcount m acc.res acc.stats
      simp only [rcount] at hp
      by_cases hc : m.confidence ≥ cfg.min_confidence <;>
        simp [pending, hA, hc, rcount, List.length_append] <;> omega

theorem runPhase_invariant (step : PdfSt → Acc → PdfSt × Acc) (f g : PdfSt → ℕ)
    (h : ∀ st acc, rcount (step st acc).2.res + f (step st acc).1 = rcount acc.res + g st) :
    ∀ (sts : List PdfSt) (acc : Acc),
      rcount (runPhase step sts acc).2.res + ((runPhase step sts acc).1.map f).sum
        = rcount acc.res + (sts.map g).sum := by
  intro sts
  induction sts with
  | nil => intro acc; simp [runPhase]
  | cons st rest ih =>
    intro acc
    have h1 := h st acc
    have h2 := ih (step st acc).2
    simp only [runPhase, List.map_cons, List.sum_cons]
    omega

theorem sum_map_one {α : Type} (l : List α) : (l.map fun _ => (1 : ℕ)).sum = l.length := by
  induction l <;> simp [*] <;> omega

theorem sum_map_zero {α : Type} (l : List α) : (l.map fun _ => (0 : ℕ)).sum = 0 := by
  induction l <;> simp [*]

theorem pendings_init (pdfs : List Pdf) :
    ((pdfs.map fun p => ({ pdf := p } : PdfSt)).map pending).sum = 0 := by
  induction pdfs with
  | nil => rfl
  | cons p rest ih => simp only [List.map_cons, List.sum_cons, ih]; rfl

/-- The intelligent pipeline accounts for every input invoice exactly once:
matches + discrepancies + unmatched invoices equals the input count. -/
theorem intelligent_count (cfg : Config) (pdfs : List Pdf) (excel : ExcelMap) (stats : Stats) :
    rcount (intelligent_reconciliation cfg pdfs excel stats).1 = pdfs.length := by
  unfold intelligent_reconciliation
  dsimp only
  have h1 := runPhase_invariant (step_exact cfg excel) pending (fun _ => 1)
    (fun st acc => step_exact_inv cfg excel st acc)
    (pdfs.map fun p => { pdf := p })
    { res := { unmatched_excel := excel.map fun kv => kv.1 }, stats := stats }
  rcases hE1 : runPhase (step_exact cfg excel) (pdfs.map fun p => { pdf := p })
      { res := { unmatched_excel := excel.map fun kv => kv.1 }, stats := stats }
    with ⟨sts1, acc1⟩
  rw [hE1] at h1
  dsimp only at h1 ⊢
  have h2 := runPhase_invariant (step_partial_order cfg excel) pending pending
    (fun st acc => step_partial_inv cfg excel st acc) sts1 acc1
  rcases hE2 : runPhase (step_partial_order cfg excel) sts1 acc1 with ⟨sts2, acc2⟩
  rw [hE2] at h2
  dsimp only at h2 ⊢
  have h3 := runPhase_invariant (step_amount_fuzzy cfg excel) pending pending
    (fun st acc => step_amount_fuzzy_inv cfg excel st acc) sts2 acc2
  rcases hE3 : runPhase (step_amount_fuzzy cfg excel) sts2 acc2 with ⟨sts3, acc3⟩
  rw [hE3] at h3
  dsimp only at h3 ⊢
  have h4 := runPhase_invariant (step_contextual cfg excel) (fun _ => 0) pending
    (fun st acc => step_contextual_inv cfg excel st acc) sts3 acc3
  rcases hE4 : runPhase (step_contextual cfg excel) sts3 acc3 with ⟨sts4, acc4⟩
  rw [hE4] at h4
  dsimp only at h4 ⊢
  rw [sum_map_one, List.length_map] at h1
  rw [sum_map_zero] at h4
  have hp0 : ((pdfs.map fun p => ({ pdf := p } : PdfSt)).map pending).sum = 0 :=
    pendings_init pdfs
  have h0 : rcount { unmatched_excel := excel.map fun kv => kv.1 } = 0 := rfl
  omega

theorem exact_only_step_inv (cfg : Config) (excel : ExcelMap) (acc : RawResults × Stats)
    (pdf : Pdf) : rcount (exact_only_step cfg excel acc pdf).1 = rcount acc.1 + 1 := by
  unfold exact_only_step
  cases h : try_exact_match cfg pdf excel with
  | none => simp [rcount, List.length_append]; omega
  | some m => simp [process_rcount]

theorem exact_fold_count (cfg : Config) (excel : ExcelMap) :
    ∀ (l : List Pdf) (acc : RawResults × Stats),
      rcount (l.foldl (exact_only_step cfg excel) acc).1 = rcount acc.1 + l.length := by
  intro l
  induction l with
  | nil => intro acc; simp
  | cons pdf rest ih =>
    intro acc
    simp only [List.foldl_cons, List.length_cons]
    rw [ih, exact_only_step_inv]
    omega

theorem exact_count (cfg : Config) (pdfs : List Pdf) (excel : ExcelMap) (stats : Stats) :
    rcount (exact_reconciliation cfg pdfs excel stats).1 = pdfs.length := by
  unfold exact_reconciliation
  rw [exact_fold_count]
  dsimp only
  have h0 : rcount ({ unmatched_excel := excel.map (fun kv => kv.1) } : RawResults) = 0 := rfl
  omega

/-- Number of flagged (needs-partial) pdfs. -/
def tcount (l : List (Pdf × Bool)) : ℕ := (l.map fun pb => if pb.2 then 1 else 0).sum

theorem partial_flag_step_inv (cfg : Config) (excel : ExcelMap)
    (acc : List (Pdf × Bool) × RawResults × Stats) (pdf : Pdf) :
    rcount (partial_flag_step cfg excel acc pdf).2.1 + tcount (partial_flag_step cfg excel acc pdf).1
      = rcount acc.2.1 + tcount acc.1 + 1 := by
  unfold partial_flag_step
  cases h : try_exact_match cfg pdf excel with
  | none => simp [tcount, process_rcount, List.map_append]; omega
  | some m => simp [tcount, process_rcount, List.map_append]; omega

theorem partial_flag_fold (cfg : Config) (excel : ExcelMap) :
    ∀ (l : List Pdf) (acc : List (Pdf × Bool) × RawResults × Stats),
      rcount ((l.foldl (partial_flag_step cfg excel) acc).2.1)
          + tcount ((l.foldl (partial_flag_step cfg excel) acc).1)
        = rcount acc.2.1 + tcount acc.1 + l.length := by
  intro l
  induction l with
  | nil => intro acc; simp
  | cons pdf rest ih =>
    intro acc
    simp only [List.foldl_cons, List.length_cons]
    have h1 := partial_flag_step_inv cfg excel acc pdf
    have h2 := ih (partial_flag_step cfg excel acc pdf)
    omega

theorem partial_second_step_inv (cfg : Config) (excel : ExcelMap) (acc : RawResults × Stats)
    (pb : Pdf × Bool) :
    rcount (partial_second_step cfg excel acc pb).1
      = rcount acc.1 + (if pb.2 then 1 else 0) := by
  unfold partial_second_step
  by_cases hb : pb.2
  · simp only [hb, if_true]
    cases h : try_partial_match cfg pb.1 excel acc.1.unmatched_excel with
    | none => simp [rcount, List.length_append]; omega
    | some m =>
      have hp := process_rcount m acc.1 acc.2
      simp only [rcount] at hp
      by_cases hc : m.confidence ≥ cfg.min_confidence <;>
        simp [hc, rcount, List.length_append] <;> omega
  · simp [hb]

theorem partial_second_fold (cfg : Config) (excel : ExcelMap) :
    ∀ (l : List (Pdf × Bool)) (acc : RawResults × Stats),
      rcount ((l.foldl (partial_second_step cfg excel) acc).1)
        = rcount acc.1 + tcount l := by
  intro l
  induction l with
  | nil => intro acc; simp [tcount]
  | cons pb rest ih =>
    intro acc
    simp only [List.foldl_cons, tcount, List.map_cons, List.sum_cons]
    have h1 := partial_second_step_inv cfg excel acc pb
    have h2 := ih (partial_second_step cfg excel acc pb)
    simp only [tcount] at h2
    omega

theorem partial_count (cfg : Config) (pdfs : List Pdf) (excel : ExcelMap) (stats : Stats) :
    rcount (partial_reconciliation cfg pdfs excel stats).1 = pdfs.length := by
  unfold partial_reconciliation
  dsimp only
  rw [partial_second_fold]
  dsimp only
  have h1 := partial_flag_fold cfg excel pdfs
    ([], { unmatched_excel := excel.map (fun kv => kv.1) }, stats)
  dsimp only at h1
  have h0 : rcount ({ unmatched_excel := excel.map (fun kv => kv.1) } : RawResults) = 0 := rfl
  have ht : tcount ([] : List (Pdf × Bool)) = 0 := rfl
  omega

theorem run_matching_count (cfg : Config) (pdfs : List Pdf) (excel : ExcelMap) (stats : Stats) :
    rcount (run_matching cfg pdfs excel stats).1 = pdfs.length := by
  unfold run_matching
  split_ifs <;>
    first
      | exact intelligent_count cfg pdfs excel stats
      | exact exact_count cfg pdfs excel stats
      | exact partial_count cfg pdfs excel stats

end Beeline.Reconciliation

namespace Beeline

/-! ### Dictionary lemmas for the aggregation invariant -/

theorem dlookup_mem {m : ExcelMap} {k : OKey} {a : Agg} (h : dlookup m k = some a) :
    (k, a) ∈ m := by
  induction m with
  | nil => simp [dlookup] at h
  | cons kv rest ih =>
    unfold dlookup at h
    by_cases hk : kv.1 = k
    · simp only [hk, if_true, Option.some.injEq] at h
      subst h
      rw [← hk]
      exact List.mem_cons_self _ _
    · simp only [hk, if_false] at h
      exact List.mem_cons_of_mem _ (ih h)

theorem dcontains_false_not_mem {m : ExcelMap} {k : OKey} (h : dcontains m k = false) :
    ∀ d : Agg, (k, d) ∉ m := by
  induction m with
  | nil => intro d hd; simp at hd
  | cons kv rest ih =>
    intro d hd
    unfold dcontains at h
    rw [Bool.or_eq_false_iff] at h
    rcases List.mem_cons.1 hd with he | hm
    · have : kv.1 = k := by rw [← he]
      simp [this] at h
    · exact ih h.2 d hm

theorem dmodify_mem {m : ExcelMap} {k : OKey} {f : Agg → Agg} {kv : OKey × Agg}
    (h : kv ∈ dmodify m k f) : kv ∈ m ∨ ∃ d, (k, d) ∈ m ∧ kv = (k, f d) := by
  induction m with
  | nil => simp [dmodify] at h
  | cons kv0 rest ih =>
    unfold dmodify at h
    by_cases hk : kv0.1 = k
    · simp only [hk, if_true] at h
      rcases List.mem_cons.1 h with he | hm
      · right
        exact ⟨kv0.2, by rw [← hk]; exact List.mem_cons_self _ _, he⟩
      · left
        exact List.mem_cons_of_mem _ hm
    · simp only [hk, if_false] at h
      rcases List.mem_cons.1 h with he | hm
      · left; rw [he]; exact List.mem_cons_self _ _
      · rcases ih hm with h1 | ⟨d, hd, he⟩
        · left; exact List.mem_cons_of_mem _ h1
        · right; exact ⟨d, List.mem_cons_of_mem _ hd, he⟩

theorem dmodify_append_fresh {m : ExcelMap} {k : OKey} (h : dcontains m k = false)
    (d0 : Agg) (f : Agg → Agg) :
    dmodify (m ++ [(k, d0)]) k f = m ++ [(k, f d0)] := by
  induction m with
  | nil => simp [dmodify]
  | cons kv rest ih =>
    unfold dcontains at h
    rw [Bool.or_eq_false_iff] at h
    have hk : ¬(kv.1 = k) := by
      intro he
      simp [he] at h
    simp only [List.cons_append, dmodify, hk, if_false, List.cons.injEq, true_and]
    exact ih h.2

end Beeline

namespace Beeline.ExcelProcessor

open Beeline

/-- Invariant of the aggregation fold: every group so far has counted only
valid lines, at least one of them. -/
def aggInv (m : ExcelMap) : Prop :=
  ∀ kv ∈ m, kv.2.validation_summary.valid_lines = kv.2.validation_summary.total_lines ∧
    0 < kv.2.validation_summary.total_lines

theorem updateAgg_vs (d : Agg) (r : ExcelRecord) (h : r.is_valid = true) :
    (updateAgg d r).validation_summary.valid_lines
        = d.validation_summary.valid_lines + 1 ∧
      (updateAgg d r).validation_summary.total_lines
        = d.validation_summary.total_lines + 1 := by
  simp [updateAgg, h]

theorem agg_step_inv {m : ExcelMap} (h : aggInv m) (r : ExcelRecord) :
    aggInv (agg_step m r) := by
  unfold agg_step
  by_cases h1 : !r.is_valid
  · simpa [h1] using h
  · simp only [h1, Bool.false_eq_true, if_false]
    by_cases h2 : !truthyStr r.order_number
    · simpa [h2] using h
    · simp only [h2, Bool.false_eq_true, if_false]
      have hv : r.is_valid = true := by
        revert h1; cases r.is_valid <;> simp
      by_cases hc : dcontains m (some (pyStrip (pyStr r.order_number)))
      · simp only [hc, if_true]
        intro kv hkv
        rcases dmodify_mem hkv with hm | ⟨d, hd, he⟩
        · exact h kv hm
        · obtain ⟨hvs1, hvs2⟩ := updateAgg_vs d r hv
          obtain ⟨ha, hb⟩ := h _ hd
          dsimp only at ha hb
          rw [he]
          refine ⟨?_, ?_⟩ <;> simp only [hvs1, hvs2] <;> omega
      · rw [Bool.not_eq_true] at hc
        simp only [hc, Bool.false_eq_true, if_false]
        rw [dmodify_append_fresh hc]
        intro kv hkv
        rcases List.mem_append.1 hkv with hm | he
        · exact h kv hm
        · simp only [List.mem_singleton] at he
          obtain ⟨hvs1, hvs2⟩ :=
            updateAgg_vs { order_number := some (pyStrip (pyStr r.order_number)) } r hv
          rw [he]
          refine ⟨?_, ?_⟩ <;> simp only [hvs1, hvs2] <;> simp

theorem agg_fold_inv (excel_data : List ExcelRecord) :
    ∀ {m : ExcelMap}, aggInv m → aggInv (excel_data.foldl agg_step m) := by
  induction excel_data with
  | nil => intro m h; simpa using h
  | cons r rest ih =>
    intro m h
    simp only [List.foldl_cons]
    exact ih (agg_step_inv h r)

theorem aggregate_validity (excel_data : List ExcelRecord) (k : OKey) (agg : Agg)
    (h : dlookup (aggregate_by_order_number excel_data) k = some agg) :
    agg.validation_summary.validity_rate = 100 ∧
      agg.validation_summary.valid_lines = agg.validation_summary.total_lines ∧
      0 < agg.validation_summary.total_lines := by
  have hmem := dlookup_mem h
  unfold aggregate_by_order_number at hmem
  rcases List.mem_map.1 hmem with ⟨kv, hkv, he⟩
  have hinv := agg_fold_inv excel_data (m := []) (by intro kv h; simp at h) kv hkv
  obtain ⟨hval, hpos⟩ := hinv
  unfold finalize_rate at he
  have hne : ((kv.2.validation_summary.total_lines : ℚ)) ≠ 0 := by
    exact_mod_cast Nat.pos_iff_ne_zero.1 hpos
  simp only [hpos, if_true, Prod.mk.injEq] at he
  obtain ⟨he1, he2⟩ := he
  rw [← he2]
  dsimp only
  refine ⟨?_, hval, hpos⟩
  rw [hval, div_self hne]
  norm_num

end Beeline.ExcelProcessor

namespace Beeline.Reconciliation

open Beeline

theorem foldl_inv {α β : Type} (f : β → α → β) (P : β → Prop)
    (hstep : ∀ b a, P b → P (f b a)) :
    ∀ (l : List α) (init : β), P init → P (l.foldl f init) := by
  intro l
  induction l with
  | nil => intro init h; simpa using h
  | cons a rest ih =>
    intro init h
    simp only [List.foldl_cons]
    exact ih _ (hstep _ _ h)

theorem fuzzy_scan_inv (cfg : Config) (pdf : Pdf) (excel : ExcelMap) (avail : List OKey)
    (r : MatchResultT)
    (h : (avail.foldl (fuzzy_scan_step cfg pdf excel)
        ((0 : ℚ), (Option.none : Option MatchResultT))).2 = some r) :
    r.method = .amount_fuzzy ∧
      r.differences.extended_tolerance_used = some (pdf.amount * (cfg.tolerance * 5)) ∧
      r.differences.amount_difference ≤ pdf.amount * (cfg.tolerance * 5) ∧
      r.confidence ≤ 1 := by
  refine foldl_inv (fuzzy_scan_step cfg pdf excel)
    (fun acc => ∀ m, acc.2 = some m →
      m.method = .amount_fuzzy ∧
        m.differences.extended_tolerance_used = some (pdf.amount * (cfg.tolerance * 5)) ∧
        m.differences.amount_difference ≤ pdf.amount * (cfg.tolerance * 5) ∧
        m.confidence ≤ 1)
    ?_ avail _ ?_ r h
  · intro b a hP
    unfold fuzzy_scan_step
    cases hdl : dlookup excel a with
    | none => exact hP
    | some eo =>
      dsimp only
      by_cases hdiff : |pdf.amount - eo.total_amount| ≤ pdf.amount * (cfg.tolerance * 5)
      · simp only [hdiff, if_true]
        by_cases hconf :
            min 1 (if suppliers_are_coherent pdf eo then
                (if dates_are_coherent cfg pdf eo then
                    (1 - |pdf.amount - eo.total_amount| / (pdf.amount * (cfg.tolerance * 5))) * (12/10)
                  else 1 - |pdf.amount - eo.total_amount| / (pdf.amount * (cfg.tolerance * 5))) * (11/10)
              else
                (if dates_are_coherent cfg pdf eo then
                    (1 - |pdf.amount - eo.total_amount| / (pdf.amount * (cfg.tolerance * 5))) * (12/10)
                  else 1 - |pdf.amount - eo.total_amount| / (pdf.amount * (cfg.tolerance * 5))))
              > b.1
        · simp only [hconf, if_true]
          intro m hm
          injection hm with hm
          subst hm
          exact ⟨rfl, rfl, hdiff, min_le_left _ _⟩
        · simp only [hconf, if_false]
          exact hP
      · simp only [hdiff, if_false]
        exact hP
  · intro m hm
    cases hm

theorem contextual_scan_inv (cfg : Config) (pdf : Pdf) (excel : ExcelMap) (avail : List OKey)
    (r : MatchResultT)
    (h : (avail.foldl (contextual_scan_step cfg pdf excel)
        ((0 : ℚ), (Option.none : Option MatchResultT))).2 = some r) :
    r.method = .supplier_date ∧ 6/10 ≤ r.confidence := by
  refine foldl_inv (contextual_scan_step cfg pdf excel)
    (fun acc => ∀ m, acc.2 = some m → m.method = .supplier_date ∧ 6/10 ≤ m.confidence)
    ?_ avail _ ?_ r h
  · intro b a hP
    unfold contextual_scan_step
    cases hdl : dlookup excel a with
    | none => exact hP
    | some eo =>
      dsimp only
      by_cases hfs : (contextual_factors cfg pdf eo).isEmpty
      · simp only [hfs, if_true]
        exact hP
      · simp only [hfs, Bool.false_eq_true, if_false]
        by_cases hc : contextual_combined cfg pdf eo > b.1 ∧ contextual_combined cfg pdf eo ≥ 6/10
        · simp only [hc, if_true]
          intro m hm
          injection hm with hm
          subst hm
          exact ⟨rfl, hc.2⟩
        · simp only [hc, if_false]
          exact hP
  · intro m hm
    cases hm

end Beeline.Reconciliation

namespace Beeline.Claims

open Beeline Beeline.Reconciliation

/-! ### Claim C3 — exact-order phase classification -/

/-- Concrete exact-phase invoice used for C3. -/
def pdfC3 : Pdf := { filename := "x.pdf", order_number := some "12345678", amount := 100 }

/-- Concrete aggregate with an 80% amount gap (claimed floor 0.3 vs actual 0.1). -/
def aggC3 : Agg := { order_number := some "12345678", total_amount := 180 }

/-- C3 counterexample: with an 80% amount gap the exact phase reports
confidence `max(0.1, 1 − 0.8) = 0.2`, not the claimed `max(0.3, 1 − 0.8) = 0.3`. -/
theorem C3_counterexample :
    (try_exact_match {} pdfC3 [(some "12345678", aggC3)]).map (fun r => r.confidence)
        = some (1/5) ∧
      ((1 : ℚ)/5) ≠ max (3/10) (1 - 80/100) := by
  constructor
  · decide
  · norm_num

/-- C3 (amended): an exact order hit is always accepted with method
`ExactOrder`; within tolerance it is a `PerfectMatch` with confidence 1,
otherwise a `Discrepancy` with confidence `max(0.1, 1 − amountDiff/invoiceAmount)`. -/
theorem C3_theorem (cfg : Config) (pdf : Pdf) (excel : ExcelMap) (agg : Agg)
    (h1 : truthyStr pdf.order_number = true)
    (h2 : dlookup excel pdf.order_number = some agg)
    (h3 : 0 < pdf.amount) :
    ∃ r, try_exact_match cfg pdf excel = some r ∧
      r.method = .exact_order ∧
      (if |pdf.amount - agg.total_amount| ≤ pdf.amount * cfg.tolerance then
        r.match_type = .perfect_match ∧ r.confidence = 1
      else
        r.match_type = .discrepancy ∧
          r.confidence = max (1/10) (1 - |pdf.amount - agg.total_amount| / pdf.amount)) := by
  unfold try_exact_match
  rw [h1, h2]
  simp only [Bool.not_true, Bool.false_eq_true, if_false]
  refine ⟨_, rfl, rfl, ?_⟩
  split_ifs with hc <;> exact ⟨rfl, rfl⟩

/-- Exact-phase invoice and aggregate realising the spec's 5%-gap example. -/
def pdfC3w : Pdf := { filename := "w.pdf", order_number := some "87654321", amount := 100 }

/-- Aggregate at a 5% gap from `pdfC3w`. -/
def aggC3w : Agg := { order_number := some "87654321", total_amount := 105 }

/-- C3 witness: the theorem applied at the 5%-gap/1%-tolerance example gives a
`Discrepancy` with confidence 0.95. -/
theorem C3_witness :
    truthyStr pdfC3w.order_number = true ∧
      dlookup [(some "87654321", aggC3w)] pdfC3w.order_number = some aggC3w ∧
      (0 : ℚ) < pdfC3w.amount ∧
      (∃ r, try_exact_match {} pdfC3w [(some "87654321", aggC3w)] = some r ∧
        r.method = .exact_order ∧
        (if |pdfC3w.amount - aggC3w.total_amount| ≤ pdfC3w.amount * Config.tolerance {} then
          r.match_type = .perfect_match ∧ r.confidence = 1
        else
          r.match_type = .discrepancy ∧
            r.confidence
              = max (1/10) (1 - |pdfC3w.amount - aggC3w.total_amount| / pdfC3w.amount))) :=
  ⟨by decide, by decide, by norm_num [pdfC3w],
    C3_theorem {} pdfC3w [(some "87654321", aggC3w)] aggC3w (by decide) (by decide)
      (by norm_num [pdfC3w])⟩

/-! ### Claim C4 — order-number normalisation -/

/-- C4 counterexample: `clean_order_number` does not strip a trailing `.0`;
it keeps all eleven digits of `"5600002101.0"`. -/
theorem C4_counterexample :
    clean_order_number (some "5600002101.0") = some "56000021010" ∧
      some "56000021010" ≠ some "5600002101" := by
  constructor
  · decide
  · decide

/-- C4 (amended): `clean_order_number` removes every non-digit character
(without first stripping a trailing `.0`) and keeps only results of length
8–12; `"5600002101.0"` therefore maps to `"56000021010"` and `"abc"` to null,
while the spreadsheet-side `validate_order_number` does strip the fractional
part and accepts `"5600002101.0"`. -/
theorem C4_theorem :
    clean_order_number (some "5600002101.0") = some "56000021010" ∧
      clean_order_number (some "abc") = Option.none ∧
      (ExcelProcessor.validate_order_number (some "5600002101.0")).valid = true ∧
      ∀ s r, clean_order_number (some s) = some r →
        8 ≤ r.length ∧ r.length ≤ 12 ∧ r.toList.all Char.isDigit := by
  refine ⟨by decide, by decide, by decide, ?_⟩
  intro s r h
  unfold clean_order_number at h
  by_cases hs : truthyStr (some s)
  · rw [hs] at h
    simp only [Bool.not_true, Bool.false_eq_true, if_false] at h
    split_ifs at h with hc
    · injection h with h
      subst h
      refine ⟨hc.1, hc.2, ?_⟩
      rw [List.all_eq_true]
      intro c hcmem
      have : c ∈ (pyStrip (pyStr (some s))).toList.filter Char.isDigit := hcmem
      exact (List.mem_filter.1 this).2
  · rw [Bool.not_eq_true] at hs
    rw [hs] at h
    simp at h

/-- C4 witness: the length bound applied to the `.0` example itself. -/
theorem C4_witness :
    8 ≤ ("56000021010" : String).length ∧ ("56000021010" : String).length ≤ 12 ∧
      ("56000021010" : String).toList.all Char.isDigit :=
  C4_theorem.2.2.2 "5600002101.0" "56000021010" (by decide)

/-! ### Claim C5 — amount confidence evaluations -/

/-- C5 counterexample: `amountConfidence(100,150)` is `1/3`, not `0` — a 50
unit gap against the larger amount 150 is a relative gap of one third, which
does not saturate the doubled penalty. -/
theorem C5_counterexample :
    calculate_amount_confidence 100 150 = 1/3 ∧ ((1 : ℚ)/3) ≠ 0 := by
  constructor
  · decide
  · norm_num

/-- C5 (amended): `amountConfidence(100,100) = 1`, `amountConfidence(100,0) = 0`,
`amountConfidence(100,150) = 1/3`; the penalty saturates to zero exactly when
the difference doubled reaches the larger amount, e.g. at `(100,200)`. -/
theorem C5_theorem :
    calculate_amount_confidence 100 100 = 1 ∧
      calculate_amount_confidence 100 0 = 0 ∧
      calculate_amount_confidence 100 150 = 1/3 ∧
      calculate_amount_confidence 100 200 = 0 ∧
      ∀ a b : ℚ, 0 < a → 0 < b → max a b ≤ 2 * |a - b| →
        calculate_amount_confidence a b = 0 := by
  refine ⟨by decide, by decide, by decide, by decide, ?_⟩
  intro a b ha hb hle
  unfold calculate_amount_confidence
  have hmx : 0 < max a b := lt_max_iff.2 (Or.inl ha)
  have hd : |a - b| ≠ 0 := by
    intro h0
    rw [h0] at hle
    simp at hle
    nlinarith
  rw [if_neg (by rintro ⟨h1, h2⟩; exact absurd h1 ha.ne'), if_neg (by
    rintro (h1 | h2)
    · exact absurd h1 ha.ne'
    · exact absurd h2 hb.ne')]
  dsimp only
  rw [if_neg hd]
  have h1 : (1 : ℚ) ≤ |a - b| / max a b * 2 := by
    rw [div_mul_eq_mul_div, le_div_iff hmx]
    linarith
  exact max_eq_left (by linarith)

/-- C5 witness: the saturation bound applied at `(100, 200)`. -/
theorem C5_witness :
    (0 : ℚ) < 100 ∧ (0 : ℚ) < 200 ∧ max (100 : ℚ) 200 ≤ 2 * |(100 : ℚ) - 200| ∧
      calculate_amount_confidence 100 200 = 0 :=
  ⟨by norm_num, by norm_num, by norm_num,
    C5_theorem.2.2.2.2 100 200 (by norm_num) (by norm_num) (by norm_num)⟩

/-! ### Claim C8 — locale-aware amount normalisation -/

/-- C8 counterexample: the invoice-side `parse_amount` first turns every comma
into a dot, so the European `"1.234,56"` becomes the unparseable `"1.234.56"`
and yields `0.0`, not `1234.56`. -/
theorem C8_counterexample :
    Reconciliation.parse_amount (.str "1.234,56") = 0 ∧ (0 : ℚ) ≠ 123456/100 := by
  constructor
  · decide
  · norm_num

/-- C8 (amended): the spreadsheet-side `clean_amount_column` parser does
disambiguate by the later separator (`"1.234,56"` and `"1,234.56"` both give
1234.56, `"9.84"` gives 9.84), but the invoice-side `parse_amount` replaces
every comma with a dot before cleaning, so both thousands-separated forms
parse to 0.0 there (plain `"9.84"` still parses to 9.84). -/
theorem C8_theorem :
    ExcelProcessor.parse_amount (some "1.234,56") = 123456/100 ∧
      ExcelProcessor.parse_amount (some "1,234.56") = 123456/100 ∧
      ExcelProcessor.parse_amount (some "9.84") = 984/100 ∧
      Reconciliation.parse_amount (.str "9.84") = 984/100 ∧
      Reconciliation.parse_amount (.str "1.234,56") = 0 ∧
      Reconciliation.parse_amount (.str "1,234.56") = 0 := by
  refine ⟨by decide, by decide, by decide, by decide, by decide, by decide⟩

/-! ### Claim C10 — aggregate validity rate -/

/-- C10: every aggregate produced by `aggregate_by_order_number` has validity
rate 100: invalid lines are skipped before grouping, so each group counts only
valid lines (at least one). -/
theorem C10_theorem (excel_data : List ExcelRecord) (k : OKey) (agg : Agg)
    (h : dlookup (ExcelProcessor.aggregate_by_order_number excel_data) k = some agg) :
    agg.validation_summary.validity_rate = 100 ∧
      agg.validation_summary.valid_lines = agg.validation_summary.total_lines ∧
      0 < agg.validation_summary.total_lines :=
  ExcelProcessor.aggregate_validity excel_data k agg h

/-- A concrete mixed-validity line list for the C10 witness. -/
def recsC10 : List ExcelRecord :=
  [ { is_valid := true, order_number := some "5600000042", net_amount := some 10 },
    { is_valid := false, order_number := some "5600000042", net_amount := some 11 },
    { is_valid := true, order_number := some "5600000042", net_amount := some 12 } ]

/-- C10 witness: the theorem applied to a concrete aggregation in which an
invalid line for the same order was dropped. -/
theorem C10_witness :
    (∃ agg, dlookup (ExcelProcessor.aggregate_by_order_number recsC10) (some "5600000042")
        = some agg ∧
      agg.validation_summary.validity_rate = 100 ∧
      agg.validation_summary.valid_lines = agg.validation_summary.total_lines ∧
      0 < agg.validation_summary.total_lines) := by
  refine ⟨_, rfl, ?_⟩
  exact C10_theorem recsC10 (some "5600000042") _ rfl

end Beeline.Claims

namespace Beeline.Claims

open Beeline Beeline.Reconciliation

/-! ### Claim C1 — per-run bookkeeping invariant -/

/-- First of two invoices sharing an order number. -/
def pdfC1a : PdfRaw :=
  { filename := some "a.pdf", purchase_order := some "5600000001", total_net := .num 100 }

/-- Second invoice with the same order number. -/
def pdfC1b : PdfRaw :=
  { filename := some "b.pdf", purchase_order := some "5600000001", total_net := .num 100 }

/-- The single spreadsheet line backing the shared aggregate. -/
def excelC1 : ExcelRecord :=
  { is_valid := true, order_number := some "5600000001", net_amount := some 100,
    collaborator := some "X", source_filename := some "t.xlsx" }

/-- C1 counterexample: two invoices with the same order number are both
accepted by the exact phase against the single aggregate — two accepted
results but only one distinct claimed aggregate, so the number of aggregates
claimed does not equal matches + discrepancies. -/
theorem C1_counterexample :
    (perform_reconciliation {} (some [pdfC1a, pdfC1b]) (some [excelC1])).toOption.map
        (fun r => (r.results.«matches».length + r.results.discrepancies.length,
          ((r.results.«matches» ++ r.results.discrepancies).map
            (fun m : FormattedMatch => m.order_number)).dedup.length))
      = some (2, 1) ∧ (2 : ℕ) ≠ 1 :=
  ⟨by decide, by decide⟩

/-- C1 (amended): matches + discrepancies + unmatchedInvoices always equals
the eligible invoice count, but the exact phase does not consume aggregates:
several invoices with the same normalized order number can each claim the
same aggregate, so the number of distinct aggregates referenced by accepted
results can be smaller than matches + discrepancies. -/
theorem C1_theorem (cfg : Config) (raw : List PdfRaw) (excel : ExcelMap) (stats : Stats) :
    ((intelligent_reconciliation cfg (prepare_pdf_data raw) excel stats).1).«matches».length
        + ((intelligent_reconciliation cfg (prepare_pdf_data raw) excel stats).1).discrepancies.length
        + ((intelligent_reconciliation cfg (prepare_pdf_data raw) excel stats).1).unmatched_pdf.length
      = (prepare_pdf_data raw).length :=
  intelligent_count cfg (prepare_pdf_data raw) excel stats

/-! ### Claim C2 — the reference-cross phase does not exist -/

/-- The invoice reference of the spec's scenario C. -/
def refC2 : InvoiceReference :=
  { batch_id := "4949", assignment_id := "65744",
    reference_key := "4949_65744", cost_center := "4949_65744" }

/-- Scenario-C invoice: no order number, one reference, positive amount. -/
def pdfC2 : PdfRaw :=
  { filename := some "c.pdf", total_net := .num 100, invoice_references := [refC2] }

/-- Scenario-C spreadsheet line whose cost center equals the reference key. -/
def excelC2 : ExcelRecord :=
  { is_valid := true, order_number := some "9999999999", net_amount := some 100,
    cost_center := some "4949_65744" }

/-- Configuration with reference matching switched on. -/
def cfgC2 : Config := { enable_reference_matching := true }

/-- C2 counterexample: spec scenario C — an invoice carrying only reference
`4949_65744`, an aggregate whose cost center is exactly that string, equal
amounts, `enableReferenceMatching` on. The claim demands an acceptance via a
reference-cross phase; the engine accepts nothing at all (no such phase
exists, and the invoice is even excluded for lack of an order number). -/
theorem C2_counterexample :
    (perform_reconciliation cfgC2 (some [pdfC2]) (some [excelC2])).toOption.map
        (fun r => (r.results.«matches», r.results.discrepancies))
      = some ([], []) := by decide

/-- C2 (amended): the pipeline has no reference-cross phase; a run of the
intelligent pipeline is entirely determined by `tolerance`, `fuzzy_threshold`,
`date_tolerance_days` and `min_confidence` — in particular
`enable_reference_matching` (and `extended_tolerance_factor`) are accepted in
the configuration but never read, and exact matching is followed directly by
partial matching. -/
theorem C2_theorem (c1 c2 : Config) (pdfs : List Pdf) (excel : ExcelMap) (stats : Stats)
    (ht : c1.tolerance = c2.tolerance) (hf : c1.fuzzy_threshold = c2.fuzzy_threshold)
    (hd : c1.date_tolerance_days = c2.date_tolerance_days)
    (hm : c1.min_confidence = c2.min_confidence) :
    intelligent_reconciliation c1 pdfs excel stats
      = intelligent_reconciliation c2 pdfs excel stats := by
  obtain ⟨t1, m1, f1, d1, c1m, e1, x1⟩ := c1
  obtain ⟨t2, m2, f2, d2, c2m, e2, x2⟩ := c2
  dsimp only at ht hf hd hm
  subst ht; subst hf; subst hd; subst hm
  rfl

/-- A configuration differing from the default only in the never-read keys. -/
def cfgC2w : Config :=
  { method := "exact", enable_reference_matching := true, extended_tolerance_factor := 2 }

/-- C2 witness: flipping `enable_reference_matching` (and the other unread
keys) leaves a concrete run unchanged. -/
theorem C2_witness :
    cfgC2w.tolerance = ({} : Config).tolerance ∧
      cfgC2w.fuzzy_threshold = ({} : Config).fuzzy_threshold ∧
      cfgC2w.date_tolerance_days = ({} : Config).date_tolerance_days ∧
      cfgC2w.min_confidence = ({} : Config).min_confidence ∧
      intelligent_reconciliation cfgC2w [] [] {} = intelligent_reconciliation {} [] [] {} :=
  ⟨rfl, rfl, rfl, rfl, C2_theorem cfgC2w {} [] [] {} rfl rfl rfl rfl⟩

end Beeline.Claims

namespace Beeline.Claims

open Beeline Beeline.Reconciliation

/-! ### Claim C6 — the amount-fuzzy phase -/

/-- Invoice whose order number matches nothing. -/
def pdfC6 : PdfRaw :=
  { filename := some "f.pdf", purchase_order := some "11111111", total_net := .num 100 }

/-- Spreadsheet line producing an aggregate at amount 98.5 (diff 1.5). -/
def excelC6 : ExcelRecord :=
  { is_valid := true, order_number := some "99999999", net_amount := some (197/2) }

/-- Configuration with the extended-tolerance flag off (factor 2). -/
def cfgC6 : Config := { extended_tolerance_factor := 2 }

set_option maxRecDepth 40000 in
/-- C6 counterexample: with `extended_tolerance_factor = 2` the claim predicts
a window of `100 × 0.01 × 2 = 2` and acceptance only at confidence ≥ 0.8; the
engine uses the hard-coded factor 5 (window 5, confidence `1 − 1.5/5 = 0.7`)
and accepts at the default `min_confidence` 0.7 < 0.8. -/
theorem C6_counterexample :
    (perform_reconciliation cfgC6 (some [pdfC6]) (some [excelC6])).toOption.map
        (fun r => r.results.discrepancies.map
          (fun m : FormattedMatch => (m.method, m.confidence)))
      = some [("amount_fuzzy", 7/10)] ∧ ((7 : ℚ)/10) < 8/10 :=
  ⟨by decide, by norm_num⟩

/-- C6 (amended): the amount-fuzzy window is always
`invoiceAmount × tolerance × 5` — the configured `extended_tolerance_factor`
is ignored — and the phase accepts the best candidate exactly when its
confidence (`1 − diff/window`, ×1.2 for coherent dates, ×1.1 for coherent
suppliers, capped at 1) reaches `min_confidence` (default 0.7), not 0.8. -/
theorem C6_theorem (cfg c2 : Config) (pdf : Pdf) (excel : ExcelMap) (avail : List OKey)
    (r : MatchResultT) :
    (cfg.tolerance = c2.tolerance → cfg.date_tolerance_days = c2.date_tolerance_days →
      try_amount_fuzzy_match cfg pdf excel avail = try_amount_fuzzy_match c2 pdf excel avail) ∧
    (try_amount_fuzzy_match cfg pdf excel avail = some r →
      r.method = .amount_fuzzy ∧
        r.differences.extended_tolerance_used = some (pdf.amount * (cfg.tolerance * 5)) ∧
        r.differences.amount_difference ≤ pdf.amount * (cfg.tolerance * 5) ∧
        r.confidence ≤ 1) ∧
    (∀ (att : List (String × ℚ)) (acc : Acc),
      (step_amount_fuzzy cfg excel { pdf := pdf, match_attempts := some att } acc).1.match_attempts
          = Option.none
        ↔ ∃ m, try_amount_fuzzy_match cfg pdf excel acc.res.unmatched_excel = some m ∧
            cfg.min_confidence ≤ m.confidence) := by
  refine ⟨?_, ?_, ?_⟩
  · intro ht hd
    obtain ⟨t1, m1, f1, d1, c1m, e1, x1⟩ := cfg
    obtain ⟨t2, m2, f2, d2, c2m, e2, x2⟩ := c2
    dsimp only at ht hd
    subst ht; subst hd
    rfl
  · intro h
    unfold try_amount_fuzzy_match at h
    by_cases hp : pdf.amount ≤ 0
    · simp [hp] at h
    · simp only [hp, if_false] at h
      exact fuzzy_scan_inv cfg pdf excel avail r h
  · intro att acc
    constructor
    · intro h
      unfold step_amount_fuzzy at h
      dsimp only at h
      rcases hm : try_amount_fuzzy_match cfg pdf excel acc.res.unmatched_excel with _ | m
      · rw [hm] at h
        simp at h
      · rw [hm] at h
        by_cases hc : m.confidence ≥ cfg.min_confidence
        · exact ⟨m, rfl, hc⟩
        · simp [hc] at h
    · rintro ⟨m, hm, hc⟩
      unfold step_amount_fuzzy
      dsimp only
      rw [hm]
      simp [ge_iff_le, hc]

/-- The prepared form of `pdfC6` as the matcher sees it. -/
def pdfC6p : Pdf := { filename := "f.pdf", order_number := some "11111111", amount := 100 }

/-- The aggregate pool for the C6 witness. -/
def excelMapC6 : ExcelMap := [(some "99999999", { order_number := some "99999999", total_amount := 197/2 })]

/-- The accepted fuzzy candidate of the C6 witness run. -/
def rC6x : MatchResultT :=
  (try_amount_fuzzy_match {} pdfC6p excelMapC6 [some "99999999"]).getD
    { match_type := .unmatched, method := .intelligent, confidence := 0,
      pdf_data := {}, excel_data := {}, differences := {} }

/-- C6 witness: the theorem applied to a concrete accepted fuzzy candidate
(window 5, confidence 0.7) and to two configurations differing only in
`extended_tolerance_factor`. -/
theorem C6_witness :
    (try_amount_fuzzy_match cfgC6 pdfC6p excelMapC6 [some "99999999"]
        = try_amount_fuzzy_match {} pdfC6p excelMapC6 [some "99999999"]) ∧
      (rC6x.method = .amount_fuzzy ∧
        rC6x.differences.extended_tolerance_used
          = some (pdfC6p.amount * (({} : Config).tolerance * 5)) ∧
        rC6x.differences.amount_difference ≤ pdfC6p.amount * (({} : Config).tolerance * 5) ∧
        rC6x.confidence ≤ 1) :=
  ⟨(C6_theorem cfgC6 {} pdfC6p excelMapC6 [some "99999999"] rC6x).1 rfl rfl,
    (C6_theorem {} {} pdfC6p excelMapC6 [some "99999999"] rC6x).2.1 (by decide)⟩

end Beeline.Claims

namespace Beeline.Claims

open Beeline Beeline.Reconciliation

/-! ### Claim C7 — error behaviour of `perform_reconciliation` -/

/-- C7 counterexample: a non-list invoice dataset does not produce a degraded
result object — the wrapped exception is re-raised. -/
theorem C7_counterexample :
    perform_reconciliation {} Option.none (some [])
      = Except.error "Erreur rapprochement: TypeError: object is not iterable" := rfl

/-- C7 (amended): `perform_reconciliation` re-raises a wrapped exception for
non-list datasets; for list datasets (including empty ones) and a
configuration with positive tolerances it terminates with a well-formed
result object whose summary counts are consistent and which accounts for
every eligible invoice exactly once. -/
theorem C7_theorem (cfg : Config) (pdfs : List PdfRaw) (excels : List ExcelRecord)
    (ht : 0 < cfg.tolerance) (hd : 0 < cfg.date_tolerance_days) :
    ∃ r, perform_reconciliation cfg (some pdfs) (some excels) = Except.ok r ∧
      r.summary.perfect_matches = r.results.«matches».length ∧
      r.summary.discrepancies = r.results.discrepancies.length ∧
      r.results.«matches».length + r.results.discrepancies.length
          + r.results.unmatched_pdf.length
        = (prepare_pdf_data pdfs).length := by
  refine ⟨_, rfl, rfl, rfl, ?_⟩
  exact run_matching_count cfg (prepare_pdf_data pdfs) (prepare_excel_data excels) _

/-- C7 witness: the theorem applied to empty datasets and the default
configuration. -/
theorem C7_witness :
    (0 : ℚ) < ({} : Config).tolerance ∧ (0 : ℤ) < ({} : Config).date_tolerance_days ∧
      (∃ r, perform_reconciliation {} (some []) (some []) = Except.ok r ∧
        r.summary.perfect_matches = r.results.«matches».length ∧
        r.summary.discrepancies = r.results.discrepancies.length ∧
        r.results.«matches».length + r.results.discrepancies.length
            + r.results.unmatched_pdf.length
          = (prepare_pdf_data []).length) :=
  ⟨by decide, by decide, C7_theorem {} [] [] (by decide) (by decide)⟩

/-! ### Claim C9 — the contextual SUPPLIER_DATE phase -/

/-- C9: after the amount-fuzzy phase the pipeline runs the contextual phase:
an invoice with neither supplier nor date is not scored; every acceptance
carries method `SUPPLIER_DATE` and a combined confidence ≥ 0.6; with all
three factors present the score is the 0.4/0.3/0.3 weighted mix of supplier
similarity, date proximity and amount confidence; and the phase accepts
exactly when the candidate also reaches `min_confidence`. -/
theorem C9_theorem (cfg : Config) (pdf : Pdf) (excel : ExcelMap) (avail : List OKey)
    (agg : Agg) (r : MatchResultT) :
    (pdf.supplier = "" → pdf.invoice_date = Option.none →
      try_contextual_match cfg pdf excel avail = Option.none) ∧
    (try_contextual_match cfg pdf excel avail = some r →
      r.method = .supplier_date ∧ 6/10 ≤ r.confidence) ∧
    (pdf.supplier ≠ "" → agg.suppliers.isEmpty = false → pdf.invoice_date.isSome = true →
      contextual_combined cfg pdf agg
        = (4/10) * supplier_similarity pdf agg
          + (3/10) * calculate_date_similarity cfg pdf.invoice_date agg
          + (3/10) * calculate_amount_confidence pdf.amount agg.total_amount) ∧
    (∀ (att : List (String × ℚ)) (acc : Acc),
      (step_contextual cfg excel { pdf := pdf, match_attempts := some att } acc).1.match_attempts
          = Option.none
        ↔ ∃ m, try_contextual_match cfg pdf excel acc.res.unmatched_excel = some m ∧
            cfg.min_confidence ≤ m.confidence) := by
  refine ⟨?_, ?_, ?_, ?_⟩
  · intro hs hd
    unfold try_contextual_match
    simp [hs, hd]
  · intro h
    unfold try_contextual_match at h
    by_cases hg : pdf.supplier = "" && pdf.invoice_date.isNone
    · simp [hg] at h
    · simp only [hg, Bool.false_eq_true, if_false] at h
      exact contextual_scan_inv cfg pdf excel avail r h
  · intro hs hsup hd
    unfold contextual_combined contextual_factors
    simp only [hs, hsup, hd, decide_not, not_false_eq_true, decide_True, Bool.not_false,
      Bool.and_self, if_true, List.cons_append, List.nil_append, List.map_cons,
      List.map_nil, List.sum_cons, List.sum_nil]
    norm_num
    ring
  · intro att acc
    constructor
    · intro h
      unfold step_contextual at h
      dsimp only at h
      rcases hm : try_contextual_match cfg pdf excel acc.res.unmatched_excel with _ | m
      · rw [hm] at h
        simp at h
      · rw [hm] at h
        by_cases hc : m.confidence ≥ cfg.min_confidence
        · exact ⟨m, rfl, hc⟩
        · simp [hc] at h
    · rintro ⟨m, hm, hc⟩
      unfold step_contextual
      dsimp only
      rw [hm]
      simp [ge_iff_le, hc]

/-- Contextual-phase invoice for the C9 witness: supplier and date present. -/
def pdfC9 : Pdf :=
  { filename := "k.pdf", amount := 100, supplier := "acme", invoice_date := some 10 }

/-- Aggregate with a matching supplier, overlapping billing period and equal
amount. -/
def aggC9 : Agg :=
  { order_number := some "7777777777", total_amount := 100, suppliers := ["acme"],
    billing_period_start := some 10, billing_period_end := some 12 }

/-- The accepted contextual candidate of the C9 witness run. -/
def rC9x : MatchResultT :=
  (try_contextual_match {} pdfC9 [(some "7777777777", aggC9)] [some "7777777777"]).getD
    { match_type := .unmatched, method := .intelligent, confidence := 0,
      pdf_data := {}, excel_data := {}, differences := {} }

set_option maxRecDepth 40000 in
/-- C9 witness: the theorem applied to a concrete accepted contextual
candidate with all three factors present. -/
theorem C9_witness :
    (rC9x.method = .supplier_date ∧ 6/10 ≤ rC9x.confidence) ∧
      contextual_combined {} pdfC9 aggC9
        = (4/10) * supplier_similarity pdfC9 aggC9
          + (3/10) * calculate_date_similarity {} pdfC9.invoice_date aggC9
          + (3/10) * calculate_amount_confidence pdfC9.amount aggC9.total_amount :=
  ⟨(C9_theorem {} pdfC9 [(some "7777777777", aggC9)] [some "7777777777"] aggC9 rC9x).2.1
      (by decide),
    (C9_theorem {} pdfC9 [(some "7777777777", aggC9)] [some "7777777777"] aggC9 rC9x).2.2.1
      (by decide) (by decide) (by decide)⟩

end Beeline.Claims
